import Mathlib

/-!
# Drone Firefighting System — mission orchestration, verified model

A shallow embedding of the mission-control subsystem of the drone
firefighting system:

* `src/database/models.py` — the entity model (`Drone`, `Task`, `FireDetection`);
* `src/mission_control/orchestrator.py` — the `MissionOrchestrator` operations;
* `src/network/drone_agent.py` — the drone agent's mission-assignment route.

Modelling conventions:

* The SQLAlchemy store becomes an explicit `Store` record of entity lists;
  queries become `List.find?` / `List.filter`; `order_by` becomes `mergeSort`;
  row mutation becomes an id-keyed map over the list.  An unordered
  `.first()` is taken in list (insertion) order.
* Python `datetime` values become rationals (minutes); `timedelta(hours=h)`
  is `h * 60`.  Python floats become `ℚ`.
* Task/detection id strings `TASK-<YYYYMMDD>-<seq>` / `FIRE-<YYYYMMDD>-<seq>`
  are embedded structurally as a (day, sequence-number) pair; the
  `like('TASK-<today>-%')` filter is the day test and the trailing-segment
  parse is the `seq` projection.
* `session.query(Drone).get(pk)` with a `None` key returns `None`
  (SQLAlchemy returns no row when the whole primary key is null), so the
  lookup is an `Option.bind`.  Autoincrement primary keys are ≥ 1, so
  Python's `if task.drone_id:` truthiness test coincides with an
  `Option.isSome` test.
* Entity fields never read or written by the embedded operations
  (positions, payload, maintenance and audit timestamps) are omitted.
* Each orchestrator method is a self-contained transaction whose session
  mutations become visible only at `session.commit()`; the `*Tx` wrappers
  embed the `try/commit/except-rollback` structure with a boolean oracle
  for the success of each reachable `commit()` call.  On failure the store
  observed by later operations is the entry store (rollback), and the
  wrapper either re-raises (`Except.error`) or returns the value produced
  by the `except` branch, exactly as the corresponding method does.
-/

namespace DFS

/-! ## Entity model (src/database/models.py) -/

inductive DroneType where
  | scouter
  | firefighter
deriving DecidableEq, Repr

inductive DroneState where
  | idle
  | charging
  | assigned
  | flying
  | returning
  | maintenance
  | offline
deriving DecidableEq, Repr

inductive TaskState where
  | created
  | assigned
  | executing
  | completed
  | failed
  | cancelled
  | archived
  | deleted
deriving DecidableEq, Repr

/-- A task id `TASK-<day>-<seq>`, embedded structurally. -/
structure TId where
  day : Nat
  seq : Nat
deriving DecidableEq, Repr

/-- A detection id `FIRE-<day>-<seq>`, embedded structurally. -/
structure FId where
  day : Nat
  seq : Nat
deriving DecidableEq, Repr

structure Drone where
  id : Nat                      -- integer primary key
  drone_id : String             -- unique string identity, e.g. "SD-001"
  drone_type : DroneType
  state : DroneState
  battery_percent : ℚ
  max_flight_time_min : ℚ
  total_flights : Nat
  total_flight_time_min : ℚ
deriving DecidableEq, Repr

structure Task where
  task_id : TId
  task_type : String            -- 'scout' or 'suppress'
  state : TaskState
  priority : String
  corner_a_lat : ℚ
  corner_a_lon : ℚ
  corner_b_lat : ℚ
  corner_b_lon : ℚ
  corner_c_lat : ℚ
  corner_c_lon : ℚ
  corner_d_lat : ℚ
  corner_d_lon : ℚ
  cruise_altitude_m : ℚ
  cruise_speed_ms : ℚ
  pattern : String
  drone_id : Option Nat         -- FK to Drone.id
  assigned_at : Option ℚ
  started_at : Option ℚ
  completed_at : Option ℚ
  hotspots_detected : Nat
  fires_suppressed : Nat
  data_path : Option String
deriving DecidableEq, Repr

structure FireDetection where
  detection_id : FId
  latitude : ℚ
  longitude : ℚ
  temperature_c : ℚ
  confidence : ℚ
  detection_method : String
  task_id : Option TId          -- owning task (by its task id)
  drone_id : Option Nat         -- FK to Drone.id (detecting drone)
  status : String               -- 'detected', 'dispatched', 'suppressed', 'false_alarm'
  dispatched_fd_id : Option Nat -- FK to Drone.id (dispatched firefighter)
  detected_at : Option ℚ
  dispatched_at : Option ℚ
  suppressed_at : Option ℚ
deriving DecidableEq, Repr

/-- The entity store: the single source of truth all operations read/mutate. -/
structure Store where
  drones : List Drone
  tasks : List Task
  detections : List FireDetection
deriving DecidableEq, Repr

/-- The configuration keys the orchestrator reads. -/
structure Config where
  min_battery_percent : ℚ       -- mission_planning.assignment.min_battery_percent
  scout_cruise_altitude_m : ℚ   -- drone_pool.scouter_drones.cruise_altitude_m
  scout_cruise_speed_ms : ℚ
  ff_cruise_altitude_m : ℚ      -- drone_pool.firefighter_drones.cruise_altitude_m
  ff_cruise_speed_ms : ℚ
  immediate_dispatch : Bool     -- fire_detection.alerts.immediate_dispatch
  min_confidence : ℚ            -- fire_detection.alerts.min_confidence
deriving Repr

/-- The orchestrator's in-memory (non-persisted) state. -/
structure Orch where
  task_counter : Nat
  detection_counter : Nat
  last_assigned_scouter_index : Int
  last_assigned_firefighter_index : Int
deriving DecidableEq, Repr

/-! ## Startup recovery (`_initialize_counters`, `_load_round_robin_state`) -/

/-- Source `_initialize_counters`: the max task sequence among today's tasks (0 if none). -/
def init_task_counter (s : Store) (today : Nat) : Nat :=
  ((s.tasks.filter (fun t => t.task_id.day == today)).map (fun t => t.task_id.seq)).foldr max 0

/-- Source `_initialize_counters`: the max detection sequence among today's detections. -/
def init_detection_counter (s : Store) (today : Nat) : Nat :=
  ((s.detections.filter (fun d => d.detection_id.day == today)).map
      (fun d => d.detection_id.seq)).foldr max 0

/-- The `assigned_at` ordering with SQL `NULL` below every value (`ORDER BY … DESC`
puts null timestamps last, so a timestamped row wins over a null one). -/
def assignedAtLt (a b : Option ℚ) : Bool :=
  match a, b with
  | _, none => false
  | none, some _ => true
  | some x, some y => decide (x < y)

/-- The query `ORDER BY assigned_at DESC … first()` over tasks of one type that have a
drone: the first task carrying the maximal `assigned_at`. -/
def latestAssigned (tasks : List Task) (ttype : String) : Option Task :=
  (tasks.filter (fun t => t.task_type == ttype && t.drone_id.isSome)).foldl
    (fun acc t =>
      match acc with
      | none => some t
      | some u => if assignedAtLt u.assigned_at t.assigned_at then some t else some u)
    none

/-- Lexicographic order on the character lists of two strings. -/
def strLt : List Char → List Char → Bool
  | [], [] => false
  | [], _ :: _ => true
  | _ :: _, [] => false
  | a :: as, b :: bs => if a < b then true else if b < a then false else strLt as bs

/-- String `≤` in executable form: equal or lexicographically smaller. -/
def strLe (a b : String) : Bool := a == b || strLt a.data b.data

/-- All drones of one type, `ORDER BY drone_id` (ascending string order; the
embedding uses a structural insertion sort, which realises SQL ordering just
as well as any other sort). -/
def sortedOfType (s : Store) (dt : DroneType) : List Drone :=
  (s.drones.filter (fun d => d.drone_type == dt)).insertionSort
    (fun a b => strLe a.drone_id b.drone_id)

/-- Source `_load_round_robin_state`, one drone kind: find the task of type `ttype`
most recently assigned to a drone, locate that drone among all drones of type
`dt` ordered by `drone_id`, and return its index; `-1` in every failure case. -/
def load_rr_index (s : Store) (ttype : String) (dt : DroneType) : Int :=
  match latestAssigned s.tasks ttype with
  | none => -1
  | some t =>
    match t.drone_id.bind (fun did => s.drones.find? (fun d => d.id == did)) with
    | none => -1
    | some last_drone =>
      match (sortedOfType s dt).findIdx? (fun d => d.drone_id == last_drone.drone_id) with
      | none => -1
      | some i => (i : Int)

/-- Source `_load_round_robin_state`: the source queries task type `'scout'` for the
scouter cursor and task type `'firefight'` for the firefighter cursor. -/
def load_round_robin_state (s : Store) : Int × Int :=
  (load_rr_index s "scout" DroneType.scouter,
   load_rr_index s "firefight" DroneType.firefighter)

/-- Source `MissionOrchestrator.__init__` against an existing store: counters and
round-robin cursors recovered from the store. -/
def newOrch (s : Store) (today : Nat) : Orch :=
  { task_counter := init_task_counter s today
    detection_counter := init_detection_counter s today
    last_assigned_scouter_index := (load_round_robin_state s).1
    last_assigned_firefighter_index := (load_round_robin_state s).2 }

/-! ## Task creation (`create_scout_task`) -/

/-- A rectangular flight area (corners A–D). -/
structure Area where
  a_lat : ℚ
  a_lon : ℚ
  b_lat : ℚ
  b_lon : ℚ
  c_lat : ℚ
  c_lon : ℚ
  d_lat : ℚ
  d_lon : ℚ
deriving DecidableEq, Repr

/-- The task record `create_scout_task` persists. -/
def scoutTask (cfg : Config) (today seq : Nat) (area : Area) (priority : String) :
    Task :=
  { task_id := ⟨today, seq⟩
    task_type := "scout"
    state := TaskState.created
    priority := priority
    corner_a_lat := area.a_lat, corner_a_lon := area.a_lon
    corner_b_lat := area.b_lat, corner_b_lon := area.b_lon
    corner_c_lat := area.c_lat, corner_c_lon := area.c_lon
    corner_d_lat := area.d_lat, corner_d_lon := area.d_lon
    cruise_altitude_m := cfg.scout_cruise_altitude_m
    cruise_speed_ms := cfg.scout_cruise_speed_ms
    pattern := "serpentine"
    drone_id := none
    assigned_at := none, started_at := none, completed_at := none
    hotspots_detected := 0, fires_suppressed := 0, data_path := none }

def create_scout_task (cfg : Config) (o : Orch) (s : Store) (today : Nat)
    (area : Area) (priority : String) : Orch × Store × TId :=
  let o1 := { o with task_counter := o.task_counter + 1 }
  let tid : TId := ⟨today, o1.task_counter⟩
  (o1, { s with tasks := s.tasks ++ [scoutTask cfg today o1.task_counter area priority] },
   tid)

/-! ## Assignment (`assign_task_to_drone`) -/

/-- The candidate filter of `assign_task_to_drone`: required type, `IDLE`,
battery at least the configured minimum. -/
def eligible (cfg : Config) (dt : DroneType) (d : Drone) : Bool :=
  d.drone_type == dt && d.state == DroneState.idle
    && decide (cfg.min_battery_percent ≤ d.battery_percent)

/-- The round-robin loop: for `i = 0, …, n-1` try index
`(last + 1 + i) mod n` (Python `%` on a positive modulus is `Int.emod`) and
take the first candidate whose battery meets the minimum. -/
def rrSelect (available : List Drone) (last : Int) (min_battery : ℚ) :
    Option (Drone × Nat) :=
  (List.range available.length).findSome? (fun (i : Nat) =>
    let next : Nat := ((last + 1 + (i : Int)).emod (available.length : Int)).toNat
    match available[next]? with
    | some c =>
        if min_battery ≤ c.battery_percent then some (c, next) else none
    | none => none)

/-- Python `max(drones, key=battery)`: the first drone with maximal battery. -/
def highestBattery (ds : List Drone) : Option Drone :=
  ds.foldl
    (fun acc d =>
      match acc with
      | none => some d
      | some m => if m.battery_percent < d.battery_percent then some d else some m)
    none

/-- The committed entity mutation of a successful assignment: the task gets
the drone, state `ASSIGNED` and a timestamp; the drone becomes `ASSIGNED`. -/
def commitAssign (s : Store) (tid : TId) (did : Nat) (now : ℚ) : Store :=
  { s with
    tasks := s.tasks.map (fun t =>
      if t.task_id == tid then
        { t with drone_id := some did, state := TaskState.assigned, assigned_at := some now }
      else t)
    drones := s.drones.map (fun d =>
      if d.id == did then { d with state := DroneState.assigned } else d) }

/-- Tasks of type `'scout'` need a Scouter, anything else a Firefighter. -/
def requiredType (t : Task) : DroneType :=
  if t.task_type == "scout" then DroneType.scouter else DroneType.firefighter

/-- Source `assign_task_to_drone`.  Returns the selected drone (the source returns a
dict of its pre-assignment fields), or `none` when the task does not exist or
no eligible drone exists. -/
def assign_task_to_drone (cfg : Config) (o : Orch) (s : Store) (tid : TId)
    (now : ℚ) : Orch × Store × Option Drone :=
  match s.tasks.find? (fun t => t.task_id == tid) with
  | none => (o, s, none)
  | some task =>
    let dtype := requiredType task
    let available := (s.drones.filter (eligible cfg dtype)).insertionSort
      (fun a b => strLe a.drone_id b.drone_id)
    if available.isEmpty then (o, s, none)
    else
      let last := if dtype == DroneType.scouter then o.last_assigned_scouter_index
                  else o.last_assigned_firefighter_index
      match rrSelect available last cfg.min_battery_percent with
      | some (d, idx) =>
        let o' := if dtype == DroneType.scouter then
                    { o with last_assigned_scouter_index := (idx : Int) }
                  else
                    { o with last_assigned_firefighter_index := (idx : Int) }
        (o', commitAssign s tid d.id now, some d)
      | none =>
        -- defensive fallback: highest battery, cursor not advanced
        match highestBattery available with
        | some d => (o, commitAssign s tid d.id now, some d)
        | none => (o, s, none)

/-! ## Lifecycle (`start_task_execution`, `complete_task`,
`complete_suppression_task`) -/

def start_task_execution (s : Store) (tid : TId) (now : ℚ) : Store :=
  match s.tasks.find? (fun t => t.task_id == tid) with
  | none => s
  | some task =>
    let s1 := { s with tasks := s.tasks.map (fun t =>
      if t.task_id == tid then
        { t with state := TaskState.executing, started_at := some now }
      else t) }
    match task.drone_id.bind (fun did => s.drones.find? (fun d => d.id == did)) with
    | none => s1
    | some drone =>
      { s1 with drones := s1.drones.map (fun d =>
          if d.id == drone.id then { d with state := DroneState.flying } else d) }

/-- The drone mutation of task completion: `IDLE`, one more flight, and — when
the task has a start timestamp — flight time credited and battery debited by
`(flight_time / max_flight_time_min) * 100`, floored at 0. -/
def droneAfterFlight (started_at : Option ℚ) (now : ℚ) (d : Drone) : Drone :=
  let d1 := { d with state := DroneState.idle, total_flights := d.total_flights + 1 }
  match started_at with
  | none => d1
  | some st =>
    let flight_time := now - st
    let battery_used := flight_time / d.max_flight_time_min * 100
    { d1 with
      total_flight_time_min := d1.total_flight_time_min + flight_time
      battery_percent := max 0 (d1.battery_percent - battery_used) }

def complete_task (s : Store) (tid : TId) (hotspots : Nat) (path : Option String)
    (now : ℚ) : Store :=
  match s.tasks.find? (fun t => t.task_id == tid) with
  | none => s
  | some task =>
    let s1 := { s with tasks := s.tasks.map (fun t =>
      if t.task_id == tid then
        { t with state := TaskState.completed, completed_at := some now,
                 hotspots_detected := hotspots, data_path := path }
      else t) }
    match task.drone_id.bind (fun did => s.drones.find? (fun d => d.id == did)) with
    | none => s1
    | some drone =>
      { s1 with drones := s1.drones.map (fun d =>
          if d.id == drone.id then droneAfterFlight task.started_at now d else d) }

def complete_suppression_task (s : Store) (tid : TId) (path : Option String)
    (now : ℚ) : Store :=
  match s.tasks.find? (fun t => t.task_id == tid) with
  | none => s
  | some task =>
    let s1 : Store := { s with tasks := s.tasks.map (fun t =>
      if t.task_id == tid then
        { t with state := TaskState.completed, completed_at := some now,
                 fires_suppressed := 1, data_path := path }
      else t) }
    let s2 : Store :=
      match task.drone_id.bind (fun did => s.drones.find? (fun d => d.id == did)) with
      | none => s1
      | some drone =>
        { s1 with drones := s1.drones.map (fun d =>
            if d.id == drone.id then droneAfterFlight task.started_at now d else d) }
    -- every DISPATCHED detection whose dispatched_fd_id equals the task's
    -- drone becomes SUPPRESSED
    { s2 with detections := s2.detections.map (fun dd =>
        if dd.dispatched_fd_id == task.drone_id && dd.status == "dispatched" then
          { dd with status := "suppressed", suppressed_at := some now }
        else dd) }

/-! ## Fire detection (`register_fire_detection`, `dispatch_firefighter_drone`) -/

/-- The firefighter-dispatch candidate filter: an `IDLE` Firefighter with
battery at least the (hard-coded) suppression minimum of 30. -/
def ffEligible (d : Drone) : Bool :=
  d.drone_type == DroneType.firefighter && d.state == DroneState.idle
    && decide ((30 : ℚ) ≤ d.battery_percent)

/-- The suppression task `dispatch_firefighter_drone` creates: a small square
(±0.0001° ≈ 10 m) around the detection, already `ASSIGNED` to the drone. -/
def suppressTask (cfg : Config) (today seq : Nat) (detection : FireDetection)
    (fd : Drone) (now : ℚ) : Task :=
  let offset : ℚ := 1 / 10000   -- ~10 meters
  { task_id := ⟨today, seq⟩
    task_type := "suppress"
    state := TaskState.assigned
    priority := "high"
    corner_a_lat := detection.latitude + offset
    corner_a_lon := detection.longitude - offset
    corner_b_lat := detection.latitude + offset
    corner_b_lon := detection.longitude + offset
    corner_c_lat := detection.latitude - offset
    corner_c_lon := detection.longitude + offset
    corner_d_lat := detection.latitude - offset
    corner_d_lon := detection.longitude - offset
    cruise_altitude_m := cfg.ff_cruise_altitude_m
    cruise_speed_ms := cfg.ff_cruise_speed_ms
    pattern := "serpentine"   -- column default
    drone_id := some fd.id
    assigned_at := some now
    started_at := none, completed_at := none
    hotspots_detected := 0, fires_suppressed := 0, data_path := none }

def dispatch_firefighter_drone (cfg : Config) (o : Orch) (s : Store) (today : Nat)
    (fid : FId) (now : ℚ) : Orch × Store × Option TId :=
  match s.detections.find? (fun d => d.detection_id == fid) with
  | none => (o, s, none)
  | some detection =>
    match s.drones.find? ffEligible with
    | none => (o, s, none)
    | some fd =>
      let o1 := { o with task_counter := o.task_counter + 1 }
      let tid : TId := ⟨today, o1.task_counter⟩
      let s1 :=
        { s with
          tasks := s.tasks ++ [suppressTask cfg today o1.task_counter detection fd now]
          detections := s.detections.map (fun dd =>
            if dd.detection_id == fid then
              { dd with status := "dispatched", dispatched_fd_id := some fd.id,
                        dispatched_at := some now }
            else dd)
          drones := s.drones.map (fun d =>
            if d.id == fd.id then { d with state := DroneState.assigned } else d) }
      (o1, s1, some tid)

def register_fire_detection (cfg : Config) (o : Orch) (s : Store) (today : Nat)
    (tid : TId) (droneIdStr : String) (lat lon temp conf : ℚ) (method : String)
    (now : ℚ) : Orch × Store × FId :=
  let o1 := { o with detection_counter := o.detection_counter + 1 }
  let fid : FId := ⟨today, o1.detection_counter⟩
  let task? := s.tasks.find? (fun t => t.task_id == tid)
  let drone? := s.drones.find? (fun d => d.drone_id == droneIdStr)
  let det : FireDetection :=
    { detection_id := fid
      latitude := lat, longitude := lon
      temperature_c := temp, confidence := conf
      detection_method := method
      task_id := task?.map (fun t => t.task_id)
      drone_id := drone?.map (fun d => d.id)
      status := "detected"
      dispatched_fd_id := none
      detected_at := some now, dispatched_at := none, suppressed_at := none }
  let s1 := { s with detections := s.detections ++ [det] }
  if cfg.immediate_dispatch && decide (cfg.min_confidence ≤ conf) then
    let (o2, s2, _) := dispatch_firefighter_drone cfg o1 s1 today fid now
    (o2, s2, fid)
  else
    (o1, s1, fid)

/-! ## Administration (`cancel_task`, `return_drone_to_station`,
`reset_stale_tasks`) -/

def cancel_task (s : Store) (tid : TId) (now : ℚ) : Store × Bool :=
  match s.tasks.find? (fun t => t.task_id == tid) with
  | none => (s, false)
  | some task =>
    let s1 := { s with tasks := s.tasks.map (fun t =>
      if t.task_id == tid then
        { t with state := TaskState.cancelled, completed_at := some now }
      else t) }
    match task.drone_id.bind (fun did => s.drones.find? (fun d => d.id == did)) with
    | none => (s1, true)
    | some drone =>
      ({ s1 with drones := s1.drones.map (fun d =>
          if d.id == drone.id then { d with state := DroneState.idle } else d) },
       true)

def return_drone_to_station (s : Store) (droneIdStr : String) (now : ℚ) :
    Store × Bool :=
  match s.drones.find? (fun d => d.drone_id == droneIdStr) with
  | none => (s, false)
  | some drone =>
    let active? := s.tasks.find? (fun t =>
      t.drone_id == some drone.id
        && (t.state == TaskState.assigned || t.state == TaskState.executing))
    let s1 : Store :=
      match active? with
      | none => s
      | some at_ => { s with tasks := s.tasks.map (fun t =>
          if t.task_id == at_.task_id then
            { t with state := TaskState.cancelled, completed_at := some now }
          else t) }
    ({ s1 with drones := s1.drones.map (fun d =>
        if d.drone_id == droneIdStr then { d with state := DroneState.idle } else d) },
     true)

/-- The staleness predicate of `reset_stale_tasks`: `EXECUTING` and started
before the cutoff or never started (SQL `started_at < cutoff OR started_at IS
NULL`). -/
def isStale (cutoff : ℚ) (t : Task) : Bool :=
  t.state == TaskState.executing
    && (match t.started_at with
        | none => true
        | some st => decide (st < cutoff))

def reset_stale_tasks (s : Store) (maxAgeHours : ℚ) (now : ℚ) : Store × Nat :=
  let cutoff := now - maxAgeHours * 60
  let stale := s.tasks.filter (isStale cutoff)
  let staleDroneIds := stale.filterMap (fun t => t.drone_id)
  ({ s with
     tasks := s.tasks.map (fun t =>
       if isStale cutoff t then
         { t with state := TaskState.cancelled, completed_at := some now }
       else t)
     drones := s.drones.map (fun d =>
       if staleDroneIds.contains d.id then { d with state := DroneState.idle } else d) },
   stale.length)

/-! ## Transaction wrappers

Each method body is `try: …mutate…; session.commit() except: session.rollback();
<outcome> finally: close`.  `commitOk` is the oracle for the success of the
reachable `commit()` call; on failure the store is the entry store (rollback)
and the outcome is the method's `except` branch: re-raise (`Except.error`) for
the mission-lifecycle methods, a normal `false` / `0` return for
`cancel_task`, `return_drone_to_station` and `reset_stale_tasks`.  Paths that
return before reaching `commit()` (missing entities, no eligible drone) never
see a commit failure. -/

def create_scout_taskTx (cfg : Config) (o : Orch) (s : Store) (today : Nat)
    (area : Area) (priority : String) (commitOk : Bool) :
    Orch × Store × Except String TId :=
  let (o1, s1, tid) := create_scout_task cfg o s today area priority
  if commitOk then (o1, s1, Except.ok tid)
  else (o1, s, Except.error "commit failed")

def assign_task_to_droneTx (cfg : Config) (o : Orch) (s : Store) (tid : TId)
    (now : ℚ) (commitOk : Bool) : Orch × Store × Except String (Option Drone) :=
  let (o1, s1, r) := assign_task_to_drone cfg o s tid now
  match r with
  | none => (o1, s, Except.ok none)          -- returned before commit
  | some d =>
    if commitOk then (o1, s1, Except.ok (some d))
    else (o1, s, Except.error "commit failed")

def start_task_executionTx (s : Store) (tid : TId) (now : ℚ) (commitOk : Bool) :
    Store × Except String Unit :=
  if (s.tasks.find? (fun t => t.task_id == tid)).isSome then
    if commitOk then (start_task_execution s tid now, Except.ok ())
    else (s, Except.error "commit failed")
  else (s, Except.ok ())                      -- commit is inside the `if task:`

def complete_taskTx (s : Store) (tid : TId) (hotspots : Nat) (path : Option String)
    (now : ℚ) (commitOk : Bool) : Store × Except String Unit :=
  if (s.tasks.find? (fun t => t.task_id == tid)).isSome then
    if commitOk then (complete_task s tid hotspots path now, Except.ok ())
    else (s, Except.error "commit failed")
  else (s, Except.ok ())

def complete_suppression_taskTx (s : Store) (tid : TId) (path : Option String)
    (now : ℚ) (commitOk : Bool) : Store × Except String Unit :=
  if (s.tasks.find? (fun t => t.task_id == tid)).isSome then
    if commitOk then (complete_suppression_task s tid path now, Except.ok ())
    else (s, Except.error "commit failed")
  else (s, Except.ok ())

def dispatch_firefighter_droneTx (cfg : Config) (o : Orch) (s : Store)
    (today : Nat) (fid : FId) (now : ℚ) (commitOk : Bool) :
    Orch × Store × Except String (Option TId) :=
  let (o1, s1, r) := dispatch_firefighter_drone cfg o s today fid now
  match r with
  | none => (o1, s, Except.ok none)           -- returned before commit
  | some tid =>
    if commitOk then (o1, s1, Except.ok (some tid))
    else (o1, s, Except.error "commit failed")

/-- Source `register_fire_detection` with the oracle for its own `commit()` (the
detection insert).  When that commit fails the error re-raises before any
dispatch is attempted; the nested dispatch transaction is
`dispatch_firefighter_droneTx` with its own oracle. -/
def register_fire_detectionTx (cfg : Config) (o : Orch) (s : Store) (today : Nat)
    (tid : TId) (droneIdStr : String) (lat lon temp conf : ℚ) (method : String)
    (now : ℚ) (commitOk : Bool) : Orch × Store × Except String FId :=
  let o1 := { o with detection_counter := o.detection_counter + 1 }
  if commitOk then
    let (o2, s2, fid) :=
      register_fire_detection cfg o s today tid droneIdStr lat lon temp conf method now
    (o2, s2, Except.ok fid)
  else (o1, s, Except.error "commit failed")

def cancel_taskTx (s : Store) (tid : TId) (now : ℚ) (commitOk : Bool) :
    Store × Except String Bool :=
  if (s.tasks.find? (fun t => t.task_id == tid)).isSome then
    if commitOk then
      let (s1, b) := cancel_task s tid now
      (s1, Except.ok b)
    else (s, Except.ok false)                 -- except branch: `return False`
  else (s, Except.ok false)                   -- `return False` before commit

def return_drone_to_stationTx (s : Store) (droneIdStr : String) (now : ℚ)
    (commitOk : Bool) : Store × Except String Bool :=
  if (s.drones.find? (fun d => d.drone_id == droneIdStr)).isSome then
    if commitOk then
      let (s1, b) := return_drone_to_station s droneIdStr now
      (s1, Except.ok b)
    else (s, Except.ok false)                 -- except branch: `return False`
  else (s, Except.ok false)

def reset_stale_tasksTx (s : Store) (maxAgeHours : ℚ) (now : ℚ) (commitOk : Bool) :
    Store × Except String Nat :=
  if commitOk then
    let (s1, n) := reset_stale_tasks s maxAgeHours now
    (s1, Except.ok n)
  else (s, Except.ok 0)                       -- except branch: `return 0`

/-! ## Drone Agent (src/network/drone_agent.py) -/

/-- The agent's stored pending task (`self.current_task`). -/
structure AgentTask where
  task_id : String
  config : String               -- the opaque mission_config payload
  assigned_at : ℚ
deriving DecidableEq, Repr

/-- The agent's command-visible state: `self.state` and `self.current_task`. -/
structure AgentState where
  state : String                -- "IDLE", "EXECUTING", "RTL", "LANDING", "KILLED"
  current_task : Option AgentTask
deriving DecidableEq, Repr

/-- The `POST /api/mission/assign` route: stores the pending task and replies
`{success: true}`.  The body has no guard of any kind — it overwrites whatever
task was stored before. -/
def assign_mission (a : AgentState) (task_id : String) (mission_config : String)
    (now : ℚ) : AgentState × Bool :=
  ({ a with current_task := some ⟨task_id, mission_config, now⟩ }, true)

/-! ## Concrete fixtures -/

def mkDrone (i : Nat) (sid : String) (dt : DroneType) (st : DroneState) (bat : ℚ) :
    Drone :=
  { id := i, drone_id := sid, drone_type := dt, state := st, battery_percent := bat,
    max_flight_time_min := 30, total_flights := 0, total_flight_time_min := 0 }

def mkTask (tid : TId) (ttype : String) (st : TaskState) (did : Option Nat)
    (aAt sAt : Option ℚ) : Task :=
  { task_id := tid, task_type := ttype, state := st, priority := "medium",
    corner_a_lat := 0, corner_a_lon := 0, corner_b_lat := 0, corner_b_lon := 0,
    corner_c_lat := 0, corner_c_lon := 0, corner_d_lat := 0, corner_d_lon := 0,
    cruise_altitude_m := 50, cruise_speed_ms := 10, pattern := "serpentine",
    drone_id := did, assigned_at := aAt, started_at := sAt, completed_at := none,
    hotspots_detected := 0, fires_suppressed := 0, data_path := none }

def cfgEx : Config :=
  { min_battery_percent := 30, scout_cruise_altitude_m := 50,
    scout_cruise_speed_ms := 10, ff_cruise_altitude_m := 40,
    ff_cruise_speed_ms := 12, immediate_dispatch := true, min_confidence := 7/10 }

def orchEx : Orch :=
  { task_counter := 0, detection_counter := 0,
    last_assigned_scouter_index := -1, last_assigned_firefighter_index := -1 }

/-! ## Spec-side definition for the restart-recovery claim -/

/-- Modelled from the spec: "the per-kind round-robin cursor is recovered from
the most recently assigned task of that kind".  The Suppress kind's tasks are
the tasks of type `'suppress'` (the only type `dispatch_firefighter_drone`
creates), so the spec-side firefighter cursor recovery queries `'suppress'`,
to be compared with `load_rr_index s "firefight" DroneType.firefighter` in
the source. -/
def spec_ff_rr_index (s : Store) : Int :=
  load_rr_index s "suppress" DroneType.firefighter

/-! ## General helper lemmas -/

/-- Updating the rows matched by `p` commutes with `find? p` when the update
preserves `p` (id-keyed row mutation does not change the id). -/
theorem find?_map_update {α : Type} (p : α → Bool) (f : α → α)
    (hf : ∀ a, p (f a) = p a) (l : List α) :
    (l.map (fun a => if p a then f a else a)).find? p = (l.find? p).map f := by
  induction l with
  | nil => rfl
  | cons x xs ih =>
    by_cases hx : p x = true
    · simp [List.find?_cons, hx, hf x]
    · have hx' : p x = false := Bool.eq_false_iff.mpr hx
      simp only [List.map_cons, hx', Bool.false_eq_true, if_false]
      rw [List.find?_cons_of_neg _ hx, List.find?_cons_of_neg _ hx, ih]

/-- A pointwise property survives an id-keyed row update that preserves it. -/
theorem forall_mem_map_ite {α : Type} (P : α → Prop) (p : α → Bool) (f : α → α)
    (l : List α) (h : ∀ a ∈ l, P a) (hf : ∀ a ∈ l, p a = true → P (f a)) :
    ∀ b ∈ l.map (fun a => if p a then f a else a), P b := by
  intro b hb
  obtain ⟨a, ha, rfl⟩ := List.mem_map.1 hb
  by_cases hp : p a = true
  · simpa [hp] using hf a ha hp
  · simpa [hp] using h a ha

/-- Python `max(list, key=battery)` picks an element of the list. -/
theorem highestBattery_mem (ds : List Drone) (d : Drone)
    (h : highestBattery ds = some d) : d ∈ ds := by
  suffices H : ∀ (acc : Option Drone) (l : List Drone) (x : Drone),
      (l.foldl (fun acc d =>
        match acc with
        | none => some d
        | some m => if m.battery_percent < d.battery_percent then some d else some m)
        acc) = some x → x ∈ l ∨ acc = some x by
    rcases H none ds d h with h' | h'
    · exact h'
    · cases h'
  intro acc l
  induction l generalizing acc with
  | nil => intro x hx; exact Or.inr hx
  | cons y ys ih =>
    intro x hx
    rcases ih _ x hx with h' | h'
    · exact Or.inl (List.mem_cons_of_mem _ h')
    · cases acc with
      | none =>
        dsimp only at h'
        cases h'
        exact Or.inl (List.mem_cons_self _ _)
      | some m =>
        dsimp only at h'
        by_cases hb : m.battery_percent < y.battery_percent
        · rw [if_pos hb] at h'
          cases h'
          exact Or.inl (List.mem_cons_self _ _)
        · rw [if_neg hb] at h'
          exact Or.inr h'

/-- Lemma: `rrSelect` returns an element of the candidate list together with its
index. -/
theorem rrSelect_mem (available : List Drone) (last : Int) (mb : ℚ)
    (d : Drone) (idx : Nat) (h : rrSelect available last mb = some (d, idx)) :
    available[idx]? = some d ∧ mb ≤ d.battery_percent := by
  unfold rrSelect at h
  obtain ⟨i, hi, hf⟩ := List.exists_of_findSome?_eq_some h
  dsimp at hf
  cases hg : available[(((last + 1 + (i : Int)).emod (available.length : Int)).toNat)]? with
  | none => rw [hg] at hf; cases hf
  | some c =>
    rw [hg] at hf
    dsimp only at hf
    by_cases hb : mb ≤ c.battery_percent
    · rw [if_pos hb] at hf
      rw [Option.some.injEq, Prod.mk.injEq] at hf
      obtain ⟨rfl, rfl⟩ := hf
      exact ⟨hg, hb⟩
    · rw [if_neg hb] at hf; cases hf

/-- When the candidate list is non-empty and every candidate meets the battery
minimum (which the query filter guarantees), the round-robin loop succeeds at
its first iteration: the selected index is `(last + 1) mod n`. -/
theorem rrSelect_first (available : List Drone) (last : Int) (mb : ℚ)
    (hne : available ≠ [])
    (hbat : ∀ d ∈ available, mb ≤ d.battery_percent) :
    ∃ d, available[(((last + 1).emod (available.length : Int)).toNat)]? = some d ∧
      rrSelect available last mb =
        some (d, ((last + 1).emod (available.length : Int)).toNat) := by
  have hlen : 0 < available.length := List.length_pos.mpr hne
  have hn : (0 : Int) < (available.length : Int) := by exact_mod_cast hlen
  have hmodlt : (last + 1).emod (available.length : Int) < (available.length : Int) :=
    Int.emod_lt_of_pos _ hn
  have hmodnn : 0 ≤ (last + 1).emod (available.length : Int) :=
    Int.emod_nonneg _ (by omega)
  have hidx : (((last + 1).emod (available.length : Int)).toNat) < available.length := by
    omega
  obtain ⟨d, hd⟩ : ∃ d,
      available[(((last + 1).emod (available.length : Int)).toNat)]? = some d := by
    exact ⟨available.get ⟨_, hidx⟩, List.getElem?_eq_getElem hidx⟩
  refine ⟨d, hd, ?_⟩
  have hdm : d ∈ available := by
    obtain ⟨h', h''⟩ := List.getElem?_eq_some.1 hd
    exact h'' ▸ List.getElem_mem h'
  obtain ⟨n', hn'⟩ : ∃ n', available.length = n' + 1 :=
    ⟨available.length - 1, by omega⟩
  rw [hn'] at hd
  unfold rrSelect
  rw [hn', List.range_succ_eq_map, List.findSome?_cons]
  have h0 : ((last + 1 + ((0 : Nat) : Int)).emod ((n' + 1 : Nat) : Int)).toNat
      = (((last + 1).emod ((n' + 1 : Nat) : Int)).toNat) := by
    norm_num
  dsimp only
  rw [h0, hd]
  simp [hbat d hdm]

/-! ## C4 — drone agent mission assignment -/

def agentC4 : AgentState :=
  { state := "IDLE", current_task := some ⟨"TASK-20251012-0001", "cfgA", 0⟩ }

/-- C4 counterexample: the agent holds unfinished task `TASK-20251012-0001`,
a mission-assign request for the different task `TASK-20251012-0002` arrives,
and — contrary to the claim — the response is success and the stored task is
replaced by the new one. -/
theorem claim4_counterexample :
    (assign_mission agentC4 "TASK-20251012-0002" "cfgB" 1).2 = true ∧
    (assign_mission agentC4 "TASK-20251012-0002" "cfgB" 1).1.current_task =
      some ⟨"TASK-20251012-0002", "cfgB", 1⟩ ∧
    agentC4.current_task ≠ some ⟨"TASK-20251012-0002", "cfgB", 1⟩ := by
  refine ⟨rfl, rfl, ?_⟩
  decide

/-- C4 (amended): the `assign` route has no guard at all: whatever task the
agent already holds, a well-formed mission-assign request always succeeds and
overwrites the stored task (the agent's state field is untouched). -/
theorem claim4_assign_overwrites (a : AgentState) (task_id mission_config : String)
    (now : ℚ) :
    (assign_mission a task_id mission_config now).2 = true ∧
    (assign_mission a task_id mission_config now).1.current_task =
      some ⟨task_id, mission_config, now⟩ ∧
    (assign_mission a task_id mission_config now).1.state = a.state :=
  ⟨rfl, rfl, rfl⟩

/-! ## C10 — missing task ids are silent no-ops -/

/-- C10: when no task with the given id exists, `start_task_execution`,
`complete_task` and `complete_suppression_task` all return normally (no
exception even under commit failure, since `commit()` sits inside the
`if task:` branch), give no failure indication (their return value is the
same `()` as on success), and change no entity. -/
theorem claim10_missing_task_noop (s : Store) (tid : TId) (hotspots : Nat)
    (path : Option String) (now : ℚ)
    (h : s.tasks.find? (fun t => t.task_id == tid) = none) :
    start_task_execution s tid now = s ∧
    complete_task s tid hotspots path now = s ∧
    complete_suppression_task s tid path now = s ∧
    (∀ commitOk, start_task_executionTx s tid now commitOk = (s, Except.ok ()) ∧
      complete_taskTx s tid hotspots path now commitOk = (s, Except.ok ()) ∧
      complete_suppression_taskTx s tid path now commitOk = (s, Except.ok ())) := by
  refine ⟨?_, ?_, ?_, ?_⟩
  · unfold start_task_execution; rw [h]
  · unfold complete_task; rw [h]
  · unfold complete_suppression_task; rw [h]
  · intro commitOk
    refine ⟨?_, ?_, ?_⟩ <;>
      simp [start_task_executionTx, complete_taskTx, complete_suppression_taskTx, h]

def sC10 : Store :=
  { drones := [mkDrone 1 "SD-001" DroneType.scouter DroneState.idle 80]
    tasks := [mkTask ⟨20251012, 1⟩ "scout" TaskState.created none none none]
    detections := [] }

theorem claim10_witness :
    start_task_execution sC10 ⟨20251012, 2⟩ 5 = sC10 ∧
    complete_taskTx sC10 ⟨20251012, 2⟩ 3 (some "p") 5 false = (sC10, Except.ok ()) :=
  ⟨(claim10_missing_task_noop sC10 ⟨20251012, 2⟩ 3 (some "p") 5 (by decide)).1,
   ((claim10_missing_task_noop sC10 ⟨20251012, 2⟩ 3 (some "p") 5 (by decide)).2.2.2 false).2.1⟩

/-! ## C5 — transaction failure semantics -/

def sC5 : Store :=
  { drones := [mkDrone 7 "SD-001" DroneType.scouter DroneState.assigned 80]
    tasks := [mkTask ⟨20251012, 1⟩ "scout" TaskState.assigned (some 7) (some 1) none]
    detections := [] }

/-- C5 counterexample: the task exists, so `cancel_task` reaches its
`commit()`; when that commit fails, the operation does roll back but returns
the normal value `false` instead of re-raising — the claim that every
operation re-raises persistence errors is false for `cancel_task` (and
likewise `return_drone_to_station` and `reset_stale_tasks`). -/
theorem claim5_counterexample :
    cancel_taskTx sC5 ⟨20251012, 1⟩ 9 false = (sC5, Except.ok false) ∧
    return_drone_to_stationTx sC5 "SD-001" 9 false = (sC5, Except.ok false) ∧
    reset_stale_tasksTx sC5 24 9 false = (sC5, Except.ok 0) := by
  refine ⟨?_, ?_, ?_⟩ <;> rfl

/-- C5 (amended): on a commit failure every operation rolls back — the
resulting store is the entry store, no entity partially mutated — and the
error is re-raised for the mission-lifecycle operations
(`create_scout_task`, `assign_task_to_drone`, `start_task_execution`,
`complete_task`, `complete_suppression_task`, `register_fire_detection`,
`dispatch_firefighter_drone`), while `cancel_task` and
`return_drone_to_station` swallow it and return `false` and
`reset_stale_tasks` swallows it and returns `0`. -/
theorem claim5_rollback_and_outcome (cfg : Config) (o : Orch) (s : Store)
    (today : Nat) (area : Area) (pr : String) (tid : TId) (fid : FId)
    (dstr method : String) (lat lon temp conf now age : ℚ) (hotspots : Nat)
    (path : Option String) :
    ((create_scout_taskTx cfg o s today area pr false).2.1 = s ∧
      (create_scout_taskTx cfg o s today area pr false).2.2 =
        Except.error "commit failed") ∧
    ((assign_task_to_droneTx cfg o s tid now false).2.1 = s ∧
      ((assign_task_to_droneTx cfg o s tid now false).2.2 = Except.ok none ∨
        (assign_task_to_droneTx cfg o s tid now false).2.2 =
          Except.error "commit failed")) ∧
    ((start_task_executionTx s tid now false).1 = s ∧
      ((start_task_executionTx s tid now false).2 = Except.ok () ∨
        (start_task_executionTx s tid now false).2 = Except.error "commit failed")) ∧
    ((complete_taskTx s tid hotspots path now false).1 = s ∧
      ((complete_taskTx s tid hotspots path now false).2 = Except.ok () ∨
        (complete_taskTx s tid hotspots path now false).2 =
          Except.error "commit failed")) ∧
    ((complete_suppression_taskTx s tid path now false).1 = s ∧
      ((complete_suppression_taskTx s tid path now false).2 = Except.ok () ∨
        (complete_suppression_taskTx s tid path now false).2 =
          Except.error "commit failed")) ∧
    ((register_fire_detectionTx cfg o s today tid dstr lat lon temp conf method
        now false).2.1 = s ∧
      (register_fire_detectionTx cfg o s today tid dstr lat lon temp conf method
        now false).2.2 = Except.error "commit failed") ∧
    ((dispatch_firefighter_droneTx cfg o s today fid now false).2.1 = s ∧
      ((dispatch_firefighter_droneTx cfg o s today fid now false).2.2 =
          Except.ok none ∨
        (dispatch_firefighter_droneTx cfg o s today fid now false).2.2 =
          Except.error "commit failed")) ∧
    cancel_taskTx s tid now false = (s, Except.ok false) ∧
    return_drone_to_stationTx s dstr now false = (s, Except.ok false) ∧
    reset_stale_tasksTx s age now false = (s, Except.ok 0) := by
  refine ⟨⟨rfl, rfl⟩, ?_, ?_, ?_, ?_, ⟨rfl, rfl⟩, ?_, ?_, ?_, ?_⟩
  · unfold assign_task_to_droneTx
    cases hr : (assign_task_to_drone cfg o s tid now).2.2 with
    | none =>
      constructor
      · simp [hr]
      · left; simp [hr]
    | some d =>
      constructor
      · simp [hr]
      · right; simp [hr]
  · unfold start_task_executionTx
    by_cases h : (s.tasks.find? (fun t => t.task_id == tid)).isSome <;> simp [h]
  · unfold complete_taskTx
    by_cases h : (s.tasks.find? (fun t => t.task_id == tid)).isSome <;> simp [h]
  · unfold complete_suppression_taskTx
    by_cases h : (s.tasks.find? (fun t => t.task_id == tid)).isSome <;> simp [h]
  · unfold dispatch_firefighter_droneTx
    cases hr : (dispatch_firefighter_drone cfg o s today fid now).2.2 with
    | none =>
      constructor
      · simp [hr]
      · left; simp [hr]
    | some t =>
      constructor
      · simp [hr]
      · right; simp [hr]
  · unfold cancel_taskTx
    by_cases h : (s.tasks.find? (fun t => t.task_id == tid)).isSome <;> simp [h]
  · unfold return_drone_to_stationTx
    by_cases h : (s.drones.find? (fun d => d.drone_id == dstr)).isSome <;> simp [h]
  · rfl

/-! ## C1 — `start_task_execution` has no state guard -/

def tC1 : Task :=
  mkTask ⟨20251012, 1⟩ "scout" TaskState.completed (some 1) (some 1) (some 2)

def sC1 : Store :=
  { drones := [mkDrone 1 "SD-001" DroneType.scouter DroneState.idle 70]
    tasks := [tC1]
    detections := [] }

/-- C1 counterexample: a task in `COMPLETED` state (not `ASSIGNED`) is
silently transitioned to `EXECUTING` by `start_task_execution`, and its drone
to `FLYING` — the claimed no-op/error behaviour for non-Assigned tasks does
not exist in the code. -/
theorem claim1_counterexample :
    tC1.state = TaskState.completed ∧ tC1.state ≠ TaskState.assigned ∧
    ((start_task_execution sC1 ⟨20251012, 1⟩ 10).tasks.find?
        (fun x => x.task_id == (⟨20251012, 1⟩ : TId))).map (fun t => t.state) =
      some TaskState.executing ∧
    ((start_task_execution sC1 ⟨20251012, 1⟩ 10).drones.find?
        (fun x => x.id == 1)).map (fun d => d.state) = some DroneState.flying := by
  refine ⟨rfl, by decide, ?_, ?_⟩ <;> decide

/-- C1 (amended): `start_task_execution` transitions any existing task —
whatever its state, `Assigned` or not — to `EXECUTING`, records
`started_at`, and sets the task's drone (when it has one that resolves) to
`FLYING`; only a missing task id is a no-op. -/
theorem claim1_start_unguarded (s : Store) (tid : TId) (now : ℚ) :
    (∀ t, s.tasks.find? (fun x => x.task_id == tid) = some t →
      ∃ t', (start_task_execution s tid now).tasks.find?
          (fun x => x.task_id == tid) = some t' ∧
        t'.state = TaskState.executing ∧ t'.started_at = some now ∧
        (∀ d, t.drone_id.bind (fun did => s.drones.find? (fun x => x.id == did))
            = some d →
          ∃ d', (start_task_execution s tid now).drones.find?
              (fun x => x.id == d.id) = some d' ∧
            d'.state = DroneState.flying)) ∧
    (s.tasks.find? (fun x => x.task_id == tid) = none →
      start_task_execution s tid now = s) := by
  constructor
  · intro t ht
    unfold start_task_execution
    rw [ht]
    dsimp only
    split
    next hb =>
      refine ⟨{ t with state := TaskState.executing, started_at := some now },
        ?_, rfl, rfl, ?_⟩
      · have h1 := find?_map_update (fun x => x.task_id == tid)
          (fun x => { x with state := TaskState.executing, started_at := some now })
          (fun a => rfl) s.tasks
        rw [ht] at h1
        exact h1
      · intro d hd
        rw [hb] at hd
        cases hd
    next drone hb =>
      refine ⟨{ t with state := TaskState.executing, started_at := some now },
        ?_, rfl, rfl, ?_⟩
      · have h1 := find?_map_update (fun x => x.task_id == tid)
          (fun x => { x with state := TaskState.executing, started_at := some now })
          (fun a => rfl) s.tasks
        rw [ht] at h1
        exact h1
      · intro d hd
        rw [hb] at hd
        injection hd with hd'
        subst hd'
        obtain ⟨did, hdid, hfind⟩ := Option.bind_eq_some.1 hb
        have hidb := List.find?_some hfind
        have hid : drone.id = did := by simpa using hidb
        rw [← hid] at hfind
        refine ⟨{ drone with state := DroneState.flying }, ?_, rfl⟩
        have h2 := find?_map_update (fun x => x.id == drone.id)
          (fun x => { x with state := DroneState.flying })
          (fun a => rfl) s.drones
        rw [hfind] at h2
        exact h2
  · intro h
    unfold start_task_execution
    rw [h]

theorem claim1_witness :
    ((start_task_execution sC1 ⟨20251012, 1⟩ 10).tasks.find?
        (fun x => x.task_id == (⟨20251012, 1⟩ : TId))).map (fun t => t.started_at) =
      some (some 10) := by
  obtain ⟨t', ht', hst, hstart, hdr⟩ :=
    (claim1_start_unguarded sC1 ⟨20251012, 1⟩ 10).1 tC1 (by decide)
  rw [ht']
  simp [hstart]

/-! ## C6 — `complete_task` contract -/

/-- The `droneAfterFlight` update never changes the drone's primary key. -/
theorem droneAfterFlight_id (st : Option ℚ) (now : ℚ) (d : Drone) :
    (droneAfterFlight st now d).id = d.id := by
  cases st <;> rfl

/-- C6: completing a task with an assigned, existing drone marks the task
`COMPLETED` with its results and the drone `IDLE` in the same resulting store
(never one without the other), increments `total_flights` by exactly one, and
debits the battery by `(completed_at − started_at) / max_flight_time_min ×
100` floored at 0 — or not at all when `started_at` is unset. -/
theorem claim6_complete_task (s : Store) (tid : TId) (hotspots : Nat)
    (path : Option String) (now : ℚ) (t : Task) (did : Nat) (d : Drone)
    (ht : s.tasks.find? (fun x => x.task_id == tid) = some t)
    (hdid : t.drone_id = some did)
    (hd : s.drones.find? (fun x => x.id == did) = some d) :
    ∃ t' d',
      (complete_task s tid hotspots path now).tasks.find?
        (fun x => x.task_id == tid) = some t' ∧
      (complete_task s tid hotspots path now).drones.find?
        (fun x => x.id == did) = some d' ∧
      t'.state = TaskState.completed ∧ t'.completed_at = some now ∧
      t'.hotspots_detected = hotspots ∧ t'.data_path = path ∧
      d'.state = DroneState.idle ∧ d'.total_flights = d.total_flights + 1 ∧
      (∀ st, t.started_at = some st →
        d'.battery_percent =
          max 0 (d.battery_percent - (now - st) / d.max_flight_time_min * 100)) ∧
      (t.started_at = none → d'.battery_percent = d.battery_percent) := by
  have hb : t.drone_id.bind (fun k => s.drones.find? (fun x => x.id == k)) = some d := by
    rw [hdid]
    exact hd
  unfold complete_task
  rw [ht]
  dsimp only
  split
  next hbn =>
    rw [hbn] at hb
    simp at hb
  next drone hbs =>
    have hdd : drone = d := by
      have := hbs.symm.trans hb
      injection this
    subst hdd
    have hid : drone.id = did := by
      have := List.find?_some hd
      simpa using this
    refine ⟨{ t with
        state := TaskState.completed
        completed_at := some now
        hotspots_detected := hotspots
        data_path := path },
      droneAfterFlight t.started_at now drone, ?_, ?_, rfl, rfl, rfl, rfl,
      ?_, ?_, ?_, ?_⟩
    · have h1 := find?_map_update (fun x => x.task_id == tid)
        (fun x => { x with
          state := TaskState.completed
          completed_at := some now
          hotspots_detected := hotspots
          data_path := path })
        (fun a => rfl) s.tasks
      rw [ht] at h1
      exact h1
    · rw [← hid] at hd ⊢
      have h2 := find?_map_update (fun x => x.id == drone.id)
        (droneAfterFlight t.started_at now)
        (fun a => by simp only [droneAfterFlight_id]) s.drones
      rw [hd] at h2
      exact h2
    · cases hst : t.started_at <;> simp [droneAfterFlight, hst]
    · cases hst : t.started_at <;> simp [droneAfterFlight, hst]
    · intro st hst
      simp [droneAfterFlight, hst]
    · intro hst
      simp [droneAfterFlight, hst]

def dC6 : Drone := mkDrone 1 "SD-001" DroneType.scouter DroneState.flying 80

def tC6 : Task :=
  mkTask ⟨20251012, 1⟩ "scout" TaskState.executing (some 1) (some 5) (some 10)

def sC6 : Store := { drones := [dC6], tasks := [tC6], detections := [] }

theorem claim6_witness :
    ((complete_task sC6 ⟨20251012, 1⟩ 2 (some "data/p") 25).tasks.find?
        (fun x => x.task_id == (⟨20251012, 1⟩ : TId))).map (fun t => t.state) =
      some TaskState.completed ∧
    ((complete_task sC6 ⟨20251012, 1⟩ 2 (some "data/p") 25).drones.find?
        (fun x => x.id == 1)).map
      (fun x => (x.state, x.total_flights, x.battery_percent)) =
      some (DroneState.idle, 1, 30) := by
  obtain ⟨t', d', ht', hd', hts, hca, hhot, hpath, hds, hfl, hbat, hbatn⟩ :=
    claim6_complete_task sC6 ⟨20251012, 1⟩ 2 (some "data/p") 25 tC6 1 dC6
      (by decide) (by decide) (by decide)
  constructor
  · rw [ht']
    simp [hts]
  · rw [hd']
    have hb := hbat 10 rfl
    have : d'.battery_percent = 30 := by
      rw [hb]
      show max 0 (dC6.battery_percent - (25 - 10) / dC6.max_flight_time_min * 100) = 30
      norm_num [dC6, mkDrone]
    simp [hds, hfl, this]
    rfl

/-! ## C8 — detection registration and dispatch threshold -/

/-- An id-keyed row update that matches no row is the identity. -/
theorem map_ite_id {α : Type} (p : α → Bool) (f : α → α) (l : List α)
    (h : ∀ a ∈ l, p a = false) : l.map (fun a => if p a then f a else a) = l := by
  have h' : ∀ a ∈ l, (fun a => if p a then f a else a) a = a := by
    intro a ha
    simp [h a ha]
  rw [List.map_congr_left h']
  simp

/-- Anatomy of a successful dispatch: detection found, an eligible firefighter
found — one suppression task appended, the detection marked dispatched, the
drone marked assigned. -/
theorem dispatch_success (cfg : Config) (o : Orch) (s : Store) (today : Nat)
    (fid : FId) (now : ℚ) (det : FireDetection) (fd : Drone)
    (hdet : s.detections.find? (fun x => x.detection_id == fid) = some det)
    (hfd : s.drones.find? ffEligible = some fd) :
    dispatch_firefighter_drone cfg o s today fid now =
      ({ o with task_counter := o.task_counter + 1 },
       { drones := s.drones.map (fun d =>
           if d.id == fd.id then { d with state := DroneState.assigned } else d)
         tasks := s.tasks ++ [suppressTask cfg today (o.task_counter + 1) det fd now]
         detections := s.detections.map (fun dd =>
           if dd.detection_id == fid then
             { dd with status := "dispatched", dispatched_fd_id := some fd.id,
                       dispatched_at := some now }
           else dd) },
       some ⟨today, o.task_counter + 1⟩) := by
  unfold dispatch_firefighter_drone
  rw [hdet, hfd]

/-- When no idle firefighter with enough battery exists, dispatch returns
`none` and changes nothing. -/
theorem dispatch_no_drone (cfg : Config) (o : Orch) (s : Store) (today : Nat)
    (fid : FId) (now : ℚ) (hfd : s.drones.find? ffEligible = none) :
    dispatch_firefighter_drone cfg o s today fid now = (o, s, none) := by
  unfold dispatch_firefighter_drone
  cases hdet : s.detections.find? (fun x => x.detection_id == fid) with
  | none => rfl
  | some det => rw [hfd]

/-- C8: `register_fire_detection` always persists the detection in `detected`
status; with confidence strictly below the minimum no dispatch happens (no
new task, drones untouched); at or above the minimum with immediate dispatch
enabled and an eligible Firefighter, exactly one `suppress` task is appended
already `ASSIGNED` to that drone and the detection becomes `dispatched` with
the drone reference and timestamp; with no eligible Firefighter the dispatch
returns `none` and the detection stays `detected`. -/
theorem claim8_register_and_dispatch :
    (∀ cfg o s today tid dstr lat lon temp conf method now,
      conf < cfg.min_confidence →
      (register_fire_detection cfg o s today tid dstr lat lon temp conf method
          now).2.1.tasks = s.tasks ∧
      (register_fire_detection cfg o s today tid dstr lat lon temp conf method
          now).2.1.drones = s.drones ∧
      ∃ det,
        (register_fire_detection cfg o s today tid dstr lat lon temp conf method
            now).2.1.detections = s.detections ++ [det] ∧
        det.status = "detected" ∧ det.confidence = conf ∧
        det.dispatched_fd_id = none) ∧
    (∀ cfg o s today tid dstr lat lon temp conf method now fd,
      cfg.immediate_dispatch = true →
      cfg.min_confidence ≤ conf →
      s.drones.find? ffEligible = some fd →
      (∀ dd ∈ s.detections,
        dd.detection_id ≠ (⟨today, o.detection_counter + 1⟩ : FId)) →
      (∃ nt,
        (register_fire_detection cfg o s today tid dstr lat lon temp conf method
            now).2.1.tasks = s.tasks ++ [nt] ∧
        nt.task_type = "suppress" ∧ nt.state = TaskState.assigned ∧
        nt.drone_id = some fd.id ∧ nt.assigned_at = some now) ∧
      (∃ det,
        (register_fire_detection cfg o s today tid dstr lat lon temp conf method
            now).2.1.detections = s.detections ++ [det] ∧
        det.status = "dispatched" ∧ det.dispatched_fd_id = some fd.id ∧
        det.dispatched_at = some now ∧ det.confidence = conf) ∧
      (∃ d',
        (register_fire_detection cfg o s today tid dstr lat lon temp conf method
            now).2.1.drones.find? (fun x => x.id == fd.id) = some d' ∧
        d'.state = DroneState.assigned)) ∧
    (∀ cfg o s today tid dstr lat lon temp conf method now,
      cfg.immediate_dispatch = true →
      cfg.min_confidence ≤ conf →
      s.drones.find? ffEligible = none →
      (register_fire_detection cfg o s today tid dstr lat lon temp conf method
          now).2.1.tasks = s.tasks ∧
      (register_fire_detection cfg o s today tid dstr lat lon temp conf method
          now).2.1.drones = s.drones ∧
      ∃ det,
        (register_fire_detection cfg o s today tid dstr lat lon temp conf method
            now).2.1.detections = s.detections ++ [det] ∧
        det.status = "detected" ∧ det.dispatched_fd_id = none) ∧
    (∀ cfg o s today fid now,
      s.drones.find? ffEligible = none →
      dispatch_firefighter_drone cfg o s today fid now = (o, s, none)) := by
  refine ⟨?_, ?_, ?_, ?_⟩
  · intro cfg o s today tid dstr lat lon temp conf method now hconf
    have hc : ¬ (cfg.min_confidence ≤ conf) := not_le.mpr hconf
    have hcb : (cfg.immediate_dispatch && decide (cfg.min_confidence ≤ conf)) = false := by
      simp [hc]
    unfold register_fire_detection
    simp only [hcb, Bool.false_eq_true, if_false]
    refine ⟨?_, ?_, _, rfl, rfl, rfl, rfl⟩ <;> trivial
  · intro cfg o s today tid dstr lat lon temp conf method now fd hImm hConf hfd hFresh
    have hcb : (cfg.immediate_dispatch && decide (cfg.min_confidence ≤ conf)) = true := by
      simp [hImm, hConf]
    unfold register_fire_detection
    simp only [hcb, if_true]
    set det0 : FireDetection :=
      { detection_id := ⟨today, o.detection_counter + 1⟩
        latitude := lat, longitude := lon
        temperature_c := temp, confidence := conf
        detection_method := method
        task_id := (s.tasks.find? (fun t => t.task_id == tid)).map (fun t => t.task_id)
        drone_id := (s.drones.find? (fun d => d.drone_id == dstr)).map (fun d => d.id)
        status := "detected"
        dispatched_fd_id := none
        detected_at := some now, dispatched_at := none, suppressed_at := none } with hdet0
    have hnone : s.detections.find?
        (fun x => x.detection_id == (⟨today, o.detection_counter + 1⟩ : FId)) = none := by
      rw [List.find?_eq_none]
      intro dd hdd
      simpa using hFresh dd hdd
    have hfindapp : (s.detections ++ [det0]).find?
        (fun x => x.detection_id == (⟨today, o.detection_counter + 1⟩ : FId)) = some det0 := by
      rw [List.find?_append, hnone]
      simp
    have hds := dispatch_success cfg { o with detection_counter := o.detection_counter + 1 }
      { s with detections := s.detections ++ [det0] } today
      ⟨today, o.detection_counter + 1⟩ now det0 fd hfindapp hfd
    rw [hds]
    dsimp only
    have hmapdet : s.detections.map (fun dd =>
        if dd.detection_id == (⟨today, o.detection_counter + 1⟩ : FId) then
          { dd with status := "dispatched", dispatched_fd_id := some fd.id,
                    dispatched_at := some now }
        else dd) = s.detections := by
      refine map_ite_id _ _ _ ?_
      intro dd hdd
      simpa using hFresh dd hdd
    refine ⟨⟨suppressTask cfg today (o.task_counter + 1) det0 fd now, ?_, rfl, rfl, rfl, rfl⟩,
      ⟨{ det0 with
          status := "dispatched"
          dispatched_fd_id := some fd.id
          dispatched_at := some now }, ?_, rfl, rfl, rfl, rfl⟩, ?_⟩
    · rfl
    · rw [List.map_append, hmapdet]
      simp only [hdet0, List.map_cons, List.map_nil, beq_self_eq_true, if_true]
    · have hmem : fd ∈ s.drones := List.mem_of_find?_eq_some hfd
      have hsome : (s.drones.find? (fun x => x.id == fd.id)).isSome := by
        rw [List.find?_isSome]
        exact ⟨fd, hmem, by simp⟩
      obtain ⟨x0, hx0⟩ := Option.isSome_iff_exists.1 hsome
      have h2 := find?_map_update (fun x => x.id == fd.id)
        (fun x => { x with state := DroneState.assigned })
        (fun a => rfl) s.drones
      rw [hx0] at h2
      exact ⟨{ x0 with state := DroneState.assigned }, h2, rfl⟩
  · intro cfg o s today tid dstr lat lon temp conf method now hImm hConf hfd
    have hcb : (cfg.immediate_dispatch && decide (cfg.min_confidence ≤ conf)) = true := by
      simp [hImm, hConf]
    unfold register_fire_detection
    simp only [hcb, if_true]
    set det0 : FireDetection :=
      { detection_id := ⟨today, o.detection_counter + 1⟩
        latitude := lat, longitude := lon
        temperature_c := temp, confidence := conf
        detection_method := method
        task_id := (s.tasks.find? (fun t => t.task_id == tid)).map (fun t => t.task_id)
        drone_id := (s.drones.find? (fun d => d.drone_id == dstr)).map (fun d => d.id)
        status := "detected"
        dispatched_fd_id := none
        detected_at := some now, dispatched_at := none, suppressed_at := none } with hdet0
    set s1 : Store := { s with detections := s.detections ++ [det0] } with hs1
    have key := dispatch_no_drone cfg { o with detection_counter := o.detection_counter + 1 }
      s1 today ⟨today, o.detection_counter + 1⟩ now
      (show s1.drones.find? ffEligible = none from hfd)
    rw [key]
    refine ⟨by rw [hs1], by rw [hs1], det0, by rw [hs1], rfl, rfl⟩
  · intro cfg o s today fid now hfd
    exact dispatch_no_drone cfg o s today fid now hfd

def fdC8 : Drone := mkDrone 2 "FD-001" DroneType.firefighter DroneState.idle 90

def sC8 : Store := { drones := [fdC8], tasks := [], detections := [] }

theorem claim8_witness :
    (register_fire_detection cfgEx orchEx sC8 20251012 ⟨20251012, 1⟩ "SD-001"
        33 (-96) 120 (23/25) "thermal" 50).2.1.tasks.map
      (fun t => (t.task_type, t.state, t.drone_id)) =
      [("suppress", TaskState.assigned, some 2)] ∧
    (register_fire_detection cfgEx orchEx sC8 20251012 ⟨20251012, 1⟩ "SD-001"
        33 (-96) 120 (23/25) "thermal" 50).2.1.detections.map
      (fun dd => (dd.status, dd.dispatched_fd_id)) =
      [("dispatched", some 2)] := by
  obtain ⟨⟨nt, hnt, hty, hst, hdr, hat⟩, ⟨det, hdet, hds, hdfd, hdat, hdc⟩, _⟩ :=
    claim8_register_and_dispatch.2.1 cfgEx orchEx sC8 20251012 ⟨20251012, 1⟩
      "SD-001" 33 (-96) 120 (23/25) "thermal" 50 fdC8
      rfl (by norm_num [cfgEx]) (by decide) (by simp [sC8])
  constructor
  · rw [hnt]
    have h0 : sC8.tasks = [] := rfl
    rw [h0]
    simp [hty, hst, hdr]
    rfl
  · rw [hdet]
    have h0 : sC8.detections = [] := rfl
    rw [h0]
    simp [hds, hdfd]
    rfl

/-! ## C9 — daily sequence numbers: restart recovery and freshness -/

/-- Counter invariant: the in-memory task counter bounds every persisted task
sequence of the day. -/
def taskCtrInv (s : Store) (today : Nat) (c : Nat) : Prop :=
  ∀ t ∈ s.tasks, t.task_id.day = today → t.task_id.seq ≤ c

/-- Counter invariant for detections. -/
def detCtrInv (s : Store) (today : Nat) (c : Nat) : Prop :=
  ∀ dd ∈ s.detections, dd.detection_id.day = today → dd.detection_id.seq ≤ c

theorem le_foldr_max (l : List Nat) (a : Nat) (h : a ∈ l) : a ≤ l.foldr max 0 := by
  induction l with
  | nil => cases h
  | cons x xs ih =>
    rcases List.mem_cons.1 h with rfl | h'
    · exact le_max_left _ _
    · exact le_trans (ih h') (le_max_right _ _)

/-- The store produced by a successful dispatch. -/
def dispatchedStore (cfg : Config) (s : Store) (today seq : Nat) (fid : FId)
    (det : FireDetection) (fd : Drone) (now : ℚ) : Store :=
  { drones := s.drones.map (fun d =>
      if d.id == fd.id then { d with state := DroneState.assigned } else d)
    tasks := s.tasks ++ [suppressTask cfg today seq det fd now]
    detections := s.detections.map (fun dd =>
      if dd.detection_id == fid then
        { dd with status := "dispatched", dispatched_fd_id := some fd.id,
                  dispatched_at := some now }
      else dd) }

/-- Case analysis: `dispatch_firefighter_drone` either changes nothing and returns `none`, or
appends exactly the suppression task and updates detection and drone. -/
theorem dispatch_cases (cfg : Config) (o : Orch) (s : Store) (today : Nat)
    (fid : FId) (now : ℚ) :
    dispatch_firefighter_drone cfg o s today fid now = (o, s, none) ∨
    ∃ det fd,
      s.detections.find? (fun x => x.detection_id == fid) = some det ∧
      s.drones.find? ffEligible = some fd ∧
      dispatch_firefighter_drone cfg o s today fid now =
        ({ o with task_counter := o.task_counter + 1 },
         dispatchedStore cfg s today (o.task_counter + 1) fid det fd now,
         some ⟨today, o.task_counter + 1⟩) := by
  unfold dispatch_firefighter_drone
  cases hdet : s.detections.find? (fun x => x.detection_id == fid) with
  | none => exact Or.inl rfl
  | some det =>
    cases hfd : s.drones.find? ffEligible with
    | none => exact Or.inl rfl
    | some fd => exact Or.inr ⟨det, fd, rfl, rfl, rfl⟩

/-- C9: for any day, the task and detection counters are recovered on startup
as an upper bound of every persisted sequence for that day (the maximum), and
every id issued afterwards — by `create_scout_task`,
`dispatch_firefighter_drone` or `register_fire_detection` — is the counter's
successor, so it is strictly greater than every persisted sequence of that
day, never collides with a persisted id, and the bound is re-established
after each issue.  Sequences issued in one run are therefore strictly
increasing, and a restart recomputes the counter from the store rather than
any in-memory value. -/
theorem claim9_sequence_recovery :
    (∀ s today, taskCtrInv s today (init_task_counter s today) ∧
      detCtrInv s today (init_detection_counter s today)) ∧
    (∀ cfg o s today area pr, taskCtrInv s today o.task_counter →
      (create_scout_task cfg o s today area pr).2.2 =
        (⟨today, o.task_counter + 1⟩ : TId) ∧
      (create_scout_task cfg o s today area pr).1.task_counter =
        o.task_counter + 1 ∧
      (∀ t ∈ s.tasks, t.task_id ≠ (⟨today, o.task_counter + 1⟩ : TId)) ∧
      taskCtrInv (create_scout_task cfg o s today area pr).2.1 today
        (create_scout_task cfg o s today area pr).1.task_counter) ∧
    (∀ cfg o s today fid now, taskCtrInv s today o.task_counter →
      (∀ tid, (dispatch_firefighter_drone cfg o s today fid now).2.2 = some tid →
        tid = (⟨today, o.task_counter + 1⟩ : TId) ∧
        ∀ t ∈ s.tasks, t.task_id ≠ tid) ∧
      taskCtrInv (dispatch_firefighter_drone cfg o s today fid now).2.1 today
        (dispatch_firefighter_drone cfg o s today fid now).1.task_counter) ∧
    (∀ cfg o s today tid dstr lat lon temp conf method now,
      detCtrInv s today o.detection_counter →
      taskCtrInv s today o.task_counter →
      (register_fire_detection cfg o s today tid dstr lat lon temp conf method
          now).2.2 = (⟨today, o.detection_counter + 1⟩ : FId) ∧
      (∀ dd ∈ s.detections,
        dd.detection_id ≠ (⟨today, o.detection_counter + 1⟩ : FId)) ∧
      detCtrInv (register_fire_detection cfg o s today tid dstr lat lon temp conf
          method now).2.1 today
        (register_fire_detection cfg o s today tid dstr lat lon temp conf method
          now).1.detection_counter ∧
      taskCtrInv (register_fire_detection cfg o s today tid dstr lat lon temp conf
          method now).2.1 today
        (register_fire_detection cfg o s today tid dstr lat lon temp conf method
          now).1.task_counter) := by
  have hfreshT : ∀ (s : Store) today (c : Nat), taskCtrInv s today c →
      ∀ t ∈ s.tasks, t.task_id ≠ (⟨today, c + 1⟩ : TId) := by
    intro s today c hinv t ht heq
    have := hinv t ht (by rw [heq])
    rw [heq] at this
    have h2 : c + 1 ≤ c := this
    omega
  have hfreshD : ∀ (s : Store) today (c : Nat), detCtrInv s today c →
      ∀ dd ∈ s.detections, dd.detection_id ≠ (⟨today, c + 1⟩ : FId) := by
    intro s today c hinv dd hdd heq
    have := hinv dd hdd (by rw [heq])
    rw [heq] at this
    have h2 : c + 1 ≤ c := this
    omega
  refine ⟨?_, ?_, ?_, ?_⟩
  · intro s today
    constructor
    · intro t ht hday
      apply le_foldr_max
      exact List.mem_map_of_mem _ (List.mem_filter.2 ⟨ht, by simp [hday]⟩)
    · intro dd hdd hday
      apply le_foldr_max
      exact List.mem_map_of_mem _ (List.mem_filter.2 ⟨hdd, by simp [hday]⟩)
  · intro cfg o s today area pr hinv
    refine ⟨rfl, rfl, hfreshT s today o.task_counter hinv, ?_⟩
    intro t ht hday
    rcases List.mem_append.1 ht with h' | h'
    · exact le_trans (hinv t h' hday) (Nat.le_succ _)
    · rcases List.mem_singleton.1 h' with rfl
      exact le_refl _
  · intro cfg o s today fid now hinv
    rcases dispatch_cases cfg o s today fid now with hE | ⟨det, fd, hdet, hfd, hE⟩
    · rw [hE]
      refine ⟨?_, ?_⟩
      · intro tid h
        exact Option.noConfusion h
      · exact hinv
    · rw [hE]
      constructor
      · intro tid h
        injection h with h'
        subst h'
        exact ⟨rfl, hfreshT s today o.task_counter hinv⟩
      · intro t ht hday
        rcases List.mem_append.1 ht with h' | h'
        · exact le_trans (hinv t h' hday) (Nat.le_succ _)
        · rcases List.mem_singleton.1 h' with rfl
          exact le_refl _
  · intro cfg o s today tid dstr lat lon temp conf method now hdinv htinv
    by_cases hcb : (cfg.immediate_dispatch && decide (cfg.min_confidence ≤ conf)) = true
    · unfold register_fire_detection
      simp only [hcb, if_true]
      set det0 : FireDetection :=
        { detection_id := ⟨today, o.detection_counter + 1⟩
          latitude := lat, longitude := lon
          temperature_c := temp, confidence := conf
          detection_method := method
          task_id := (s.tasks.find? (fun t => t.task_id == tid)).map (fun t => t.task_id)
          drone_id := (s.drones.find? (fun d => d.drone_id == dstr)).map (fun d => d.id)
          status := "detected"
          dispatched_fd_id := none
          detected_at := some now, dispatched_at := none, suppressed_at := none } with hdet0
      set s1 : Store := { s with detections := s.detections ++ [det0] } with hs1
      have hd1 : detCtrInv s1 today (o.detection_counter + 1) := by
        intro dd hdd hday
        rw [hs1] at hdd
        rcases List.mem_append.1 hdd with h' | h'
        · exact le_trans (hdinv dd h' hday) (Nat.le_succ _)
        · rcases List.mem_singleton.1 h' with rfl
          rw [hdet0]
      have ht1 : taskCtrInv s1 today o.task_counter := by
        intro t ht hday
        exact htinv t ht hday
      rcases dispatch_cases cfg { o with detection_counter := o.detection_counter + 1 }
        s1 today ⟨today, o.detection_counter + 1⟩ now with hE | ⟨det, fd, hdet, hfd, hE⟩
      · rw [hE]
        exact ⟨by trivial, hfreshD s today o.detection_counter hdinv, hd1, ht1⟩
      · rw [hE]
        refine ⟨by trivial, hfreshD s today o.detection_counter hdinv, ?_, ?_⟩
        · intro dd hdd hday
          rcases List.mem_map.1 hdd with ⟨dd0, hdd0, rfl⟩
          by_cases hif : (dd0.detection_id == (⟨today, o.detection_counter + 1⟩ : FId)) = true
          · simp only [hif, if_true] at hday ⊢
            exact hd1 dd0 hdd0 hday
          · simp only [hif, Bool.false_eq_true, if_false] at hday ⊢
            exact hd1 dd0 hdd0 hday
        · intro t ht hday
          rcases List.mem_append.1 ht with h' | h'
          · exact le_trans (ht1 t h' hday) (Nat.le_succ _)
          · rcases List.mem_singleton.1 h' with rfl
            exact le_refl _
    · unfold register_fire_detection
      simp only [hcb, Bool.false_eq_true, if_false]
      refine ⟨by trivial, hfreshD s today o.detection_counter hdinv, ?_, ?_⟩
      · intro dd hdd hday
        rcases List.mem_append.1 hdd with h' | h'
        · exact le_trans (hdinv dd h' hday) (Nat.le_succ _)
        · rcases List.mem_singleton.1 h' with rfl
          exact le_refl _
      · intro t ht hday
        exact htinv t ht hday

def areaEx : Area :=
  { a_lat := 33, a_lon := -96, b_lat := 33, b_lon := -95,
    c_lat := 32, c_lon := -95, d_lat := 32, d_lon := -96 }

def sC9 : Store :=
  { drones := []
    tasks := [mkTask ⟨20251012, 3⟩ "scout" TaskState.created none none none]
    detections := [] }

def oC9 : Orch :=
  { task_counter := 3, detection_counter := 0,
    last_assigned_scouter_index := -1, last_assigned_firefighter_index := -1 }

theorem claim9_witness :
    (create_scout_task cfgEx oC9 sC9 20251012 areaEx "medium").2.2 =
      (⟨20251012, 4⟩ : TId) ∧
    (create_scout_task cfgEx oC9 sC9 20251012 areaEx "medium").1.task_counter = 4 :=
  ⟨(claim9_sequence_recovery.2.1 cfgEx oC9 sC9 20251012 areaEx "medium"
      (by unfold taskCtrInv; decide)).1,
   (claim9_sequence_recovery.2.1 cfgEx oC9 sC9 20251012 areaEx "medium"
      (by unfold taskCtrInv; decide)).2.1⟩

/-! ## C3 — the `drone_id` / state invariant -/

/-- The states whose tasks the invariant requires to carry a drone. -/
def stateNeedsDrone : TaskState → Bool
  | TaskState.assigned => true
  | TaskState.executing => true
  | TaskState.completed => true
  | _ => false

/-- The claimed per-task invariant: `drone_id` is set iff the state is
`Assigned`, `Executing` or `Completed`, except that a `Cancelled` task may
retain its drone. -/
def taskInv (t : Task) : Prop :=
  t.state = TaskState.cancelled ∨ t.drone_id.isSome = stateNeedsDrone t.state

def storeInv (s : Store) : Prop := ∀ t ∈ s.tasks, taskInv t

def sC3 : Store :=
  { drones := []
    tasks := [mkTask ⟨20251012, 1⟩ "scout" TaskState.created none none none]
    detections := [] }

/-- C3 counterexample: the invariant holds of a store with one `Created`,
drone-less task, and `start_task_execution` — lacking any state guard —
breaks it: the task becomes `Executing` with `drone_id` still unset. -/
theorem claim3_counterexample :
    storeInv sC3 ∧ ¬ storeInv (start_task_execution sC3 ⟨20251012, 1⟩ 5) := by
  unfold storeInv taskInv
  constructor
  · decide
  · decide

/-- Every task created by `commitAssign` satisfies the invariant. -/
theorem storeInv_commitAssign (s : Store) (tid : TId) (did : Nat) (now : ℚ)
    (hinv : storeInv s) : storeInv (commitAssign s tid did now) := by
  intro t ht
  exact forall_mem_map_ite taskInv (fun x => x.task_id == tid)
    (fun x => { x with
      drone_id := some did
      state := TaskState.assigned
      assigned_at := some now })
    s.tasks hinv (fun a _ _ => Or.inr rfl) t ht

/-- C3 (amended): every public operation preserves the invariant — with the
stated Cancelled exception — **provided** that `start_task_execution`,
`complete_task` and `complete_suppression_task` are only applied to tasks
that already carry a drone; applied to a drone-less task (one still in
`Created` state, say) they transition the state without setting `drone_id`
and break the invariant, as the counterexample shows. -/
theorem claim3_invariant_preservation :
    (∀ cfg o s today area pr, storeInv s →
      storeInv (create_scout_task cfg o s today area pr).2.1) ∧
    (∀ cfg o s tid now, storeInv s →
      storeInv (assign_task_to_drone cfg o s tid now).2.1) ∧
    (∀ s tid now, storeInv s →
      (∀ t ∈ s.tasks, t.task_id = tid → t.drone_id.isSome = true) →
      storeInv (start_task_execution s tid now)) ∧
    (∀ s tid h p now, storeInv s →
      (∀ t ∈ s.tasks, t.task_id = tid → t.drone_id.isSome = true) →
      storeInv (complete_task s tid h p now)) ∧
    (∀ s tid p now, storeInv s →
      (∀ t ∈ s.tasks, t.task_id = tid → t.drone_id.isSome = true) →
      storeInv (complete_suppression_task s tid p now)) ∧
    (∀ cfg o s today fid now, storeInv s →
      storeInv (dispatch_firefighter_drone cfg o s today fid now).2.1) ∧
    (∀ s tid now, storeInv s → storeInv (cancel_task s tid now).1) ∧
    (∀ s dstr now, storeInv s → storeInv (return_drone_to_station s dstr now).1) ∧
    (∀ s age now, storeInv s → storeInv (reset_stale_tasks s age now).1) := by
  refine ⟨?_, ?_, ?_, ?_, ?_, ?_, ?_, ?_, ?_⟩
  · intro cfg o s today area pr hinv t ht
    rcases List.mem_append.1 ht with h' | h'
    · exact hinv t h'
    · rcases List.mem_singleton.1 h' with rfl
      exact Or.inr rfl
  · intro cfg o s tid now hinv
    unfold assign_task_to_drone
    split
    · exact hinv
    next task hfound =>
      dsimp only
      split
      · exact hinv
      · split
        next d idx hsel =>
          exact storeInv_commitAssign s tid d.id now hinv
        next hsel =>
          split
          next d hhb =>
            exact storeInv_commitAssign s tid d.id now hinv
          next => exact hinv
  · intro s tid now hinv hguard
    unfold start_task_execution
    split
    · exact hinv
    next task hfound =>
      dsimp only
      have hmain : ∀ t ∈ s.tasks.map (fun x =>
          if x.task_id == tid then
            { x with state := TaskState.executing, started_at := some now }
          else x), taskInv t := by
        refine forall_mem_map_ite taskInv _ _ s.tasks hinv ?_
        intro a ha hp
        refine Or.inr ?_
        have : a.drone_id.isSome = true := hguard a ha (by simpa using hp)
        exact this
      split
      · exact hmain
      · exact hmain
  · intro s tid h p now hinv hguard
    unfold complete_task
    split
    · exact hinv
    next task hfound =>
      dsimp only
      have hmain : ∀ t ∈ s.tasks.map (fun x =>
          if x.task_id == tid then
            { x with state := TaskState.completed, completed_at := some now,
                     hotspots_detected := h, data_path := p }
          else x), taskInv t := by
        refine forall_mem_map_ite taskInv _ _ s.tasks hinv ?_
        intro a ha hp
        refine Or.inr ?_
        have : a.drone_id.isSome = true := hguard a ha (by simpa using hp)
        exact this
      split
      · exact hmain
      · exact hmain
  · intro s tid p now hinv hguard
    unfold complete_suppression_task
    split
    · exact hinv
    next task hfound =>
      dsimp only
      have hmain : ∀ t ∈ s.tasks.map (fun x =>
          if x.task_id == tid then
            { x with state := TaskState.completed, completed_at := some now,
                     fires_suppressed := 1, data_path := p }
          else x), taskInv t := by
        refine forall_mem_map_ite taskInv _ _ s.tasks hinv ?_
        intro a ha hp
        refine Or.inr ?_
        have : a.drone_id.isSome = true := hguard a ha (by simpa using hp)
        exact this
      split
      · exact hmain
      · exact hmain
  · intro cfg o s today fid now hinv
    rcases dispatch_cases cfg o s today fid now with hE | ⟨det, fd, hdet, hfd, hE⟩
    · rw [hE]
      exact hinv
    · rw [hE]
      intro t ht
      rcases List.mem_append.1 ht with h' | h'
      · exact hinv t h'
      · rcases List.mem_singleton.1 h' with rfl
        exact Or.inr rfl
  · intro s tid now hinv
    unfold cancel_task
    split
    · exact hinv
    next task hfound =>
      dsimp only
      have hmain : ∀ t ∈ s.tasks.map (fun x =>
          if x.task_id == tid then
            { x with state := TaskState.cancelled, completed_at := some now }
          else x), taskInv t :=
        forall_mem_map_ite taskInv _ _ s.tasks hinv (fun a _ _ => Or.inl rfl)
      split
      · exact hmain
      · exact hmain
  · intro s dstr now hinv
    unfold return_drone_to_station
    split
    · exact hinv
    next drone hfound =>
      dsimp only
      split
      next hact => exact hinv
      next at_ hact =>
        exact forall_mem_map_ite taskInv _ _ s.tasks hinv (fun a _ _ => Or.inl rfl)
  · intro s age now hinv
    exact forall_mem_map_ite taskInv _ _ s.tasks hinv (fun a _ _ => Or.inl rfl)

theorem claim3_witness :
    storeInv (cancel_task sC6 ⟨20251012, 1⟩ 30).1 :=
  claim3_invariant_preservation.2.2.2.2.2.2.1 sC6 ⟨20251012, 1⟩ 30
    (by unfold storeInv taskInv; decide)

/-! ## C2 — restart-safe round-robin cursor recovery -/

/-- Modelled from the spec: the scouter cursor recovered from the most
recently assigned task of the Scout kind (task type `'scout'`). -/
def spec_scout_rr_index (s : Store) : Int :=
  load_rr_index s "scout" DroneType.scouter

/-- A successful assignment selected a drone that was `IDLE` in the store,
and the resulting store is exactly `commitAssign` for that drone. -/
theorem assign_some_anatomy (cfg : Config) (o : Orch) (s : Store) (tid : TId)
    (now : ℚ) (d : Drone)
    (h : (assign_task_to_drone cfg o s tid now).2.2 = some d) :
    d ∈ s.drones ∧ d.state = DroneState.idle ∧
    (assign_task_to_drone cfg o s tid now).2.1 = commitAssign s tid d.id now ∧
    (∀ t, s.tasks.find? (fun x => x.task_id == tid) = some t →
      eligible cfg (requiredType t) d = true) := by
  unfold assign_task_to_drone at h
  split at h
  · cases h
  next task hfound =>
    dsimp only at h
    split at h
    next hemp => cases h
    next hemp =>
      have hmem_of_avail : ∀ dd, dd ∈ (s.drones.filter
          (eligible cfg (requiredType task))).insertionSort
            (fun a b => strLe a.drone_id b.drone_id) →
          dd ∈ s.drones ∧ eligible cfg (requiredType task) dd = true := by
        intro dd hdd
        rw [List.mem_insertionSort] at hdd
        exact List.mem_filter.1 hdd
      have hidle_of_elig : ∀ dd dt, eligible cfg dt dd = true →
          dd.state = DroneState.idle := by
        intro dd dt hel
        unfold eligible at hel
        simp only [Bool.and_eq_true, beq_iff_eq] at hel
        exact hel.1.2
      have htask : ∀ t, s.tasks.find? (fun x => x.task_id == tid) = some t →
          t = task := by
        intro t ht
        rw [hfound] at ht
        injection ht with h'
        exact h'.symm
      split at h
      next dd idx hsel =>
        dsimp only at h
        injection h with h'
        subst h'
        obtain ⟨hget, _⟩ := rrSelect_mem _ _ _ _ _ hsel
        have hdd : dd ∈ (s.drones.filter
            (eligible cfg (requiredType task))).insertionSort
              (fun a b => strLe a.drone_id b.drone_id) := by
          obtain ⟨hlt, heq⟩ := List.getElem?_eq_some.1 hget
          exact heq ▸ List.getElem_mem hlt
        obtain ⟨hmem, hel⟩ := hmem_of_avail dd hdd
        refine ⟨hmem, hidle_of_elig dd _ hel, ?_, ?_⟩
        · unfold assign_task_to_drone
          rw [hfound]
          dsimp only
          rw [if_neg hemp, hsel]
        · intro t ht
          rw [htask t ht]
          exact hel
      next hsel =>
        split at h
        next dd hhb =>
          dsimp only at h
          injection h with h'
          subst h'
          have hdd := highestBattery_mem _ _ hhb
          obtain ⟨hmem, hel⟩ := hmem_of_avail dd hdd
          refine ⟨hmem, hidle_of_elig dd _ hel, ?_, ?_⟩
          · unfold assign_task_to_drone
            rw [hfound]
            dsimp only
            rw [if_neg hemp, hsel, hhb]
          · intro t ht
            rw [htask t ht]
            exact hel
        next => cases h

def sC2 : Store :=
  { drones := [mkDrone 1 "FD-001" DroneType.firefighter DroneState.idle 95,
               mkDrone 2 "FD-002" DroneType.firefighter DroneState.assigned 90]
    tasks := [mkTask ⟨20251012, 1⟩ "suppress" TaskState.assigned (some 2)
                (some 100) none]
    detections := [] }

/-- C2 counterexample: the most recently (and only) assigned task of the
Suppress kind is bound to the drone at sorted index 1, yet the restart
recovery yields `-1` — the start/reset value — because it queries task type
`'firefight'`, which no task the orchestrator creates ever carries. -/
theorem claim2_counterexample :
    (load_round_robin_state sC2).2 = -1 ∧
    spec_ff_rr_index sC2 = 1 ∧
    ((-1 : Int) ≠ 1) := by
  refine ⟨?_, ?_, by decide⟩
  · decide
  · decide

/-- C2 (amended): (a) the firefighter cursor recovery queries task type
`'firefight'`, which never matches, so whenever the store has no
`'firefight'`-typed task (the orchestrator only ever creates `'scout'` and
`'suppress'`) it is reset to `-1`; (b) the scouter cursor is recovered from
the most recently assigned Scout-kind task exactly as the spec says; (c) the
observable restart property still holds for both kinds, trivially: a
successful assignment only ever selects an `IDLE` drone, the drone D of the
previous assignment is left `ASSIGNED`, so any later assignment — under a
fresh orchestrator or not — selects a drone other than D. -/
theorem claim2_restart_recovery :
    (∀ s : Store, (∀ t ∈ s.tasks, t.task_type ≠ "firefight") →
      (load_round_robin_state s).2 = -1) ∧
    (∀ s : Store, (load_round_robin_state s).1 = spec_scout_rr_index s) ∧
    (∀ cfg o s tid now (did : Nat) d,
      (∀ x ∈ s.drones, x.id = did → x.state ≠ DroneState.idle) →
      (assign_task_to_drone cfg o s tid now).2.2 = some d →
      d.id ≠ did) ∧
    (∀ cfg o s tid now d,
      (assign_task_to_drone cfg o s tid now).2.2 = some d →
      ∃ d', (assign_task_to_drone cfg o s tid now).2.1.drones.find?
          (fun x => x.id == d.id) = some d' ∧
        d'.state = DroneState.assigned) ∧
    (∀ cfg o s tid now o2 tid2 now2 D d,
      (assign_task_to_drone cfg o s tid now).2.2 = some D →
      (assign_task_to_drone cfg o2 (assign_task_to_drone cfg o s tid now).2.1
          tid2 now2).2.2 = some d →
      d.id ≠ D.id) := by
  have hreset : ∀ s : Store, (∀ t ∈ s.tasks, t.task_type ≠ "firefight") →
      (load_round_robin_state s).2 = -1 := by
    intro s hno
    unfold load_round_robin_state load_rr_index
    have hfil : s.tasks.filter
        (fun t => t.task_type == "firefight" && t.drone_id.isSome) = [] := by
      rw [List.filter_eq_nil_iff]
      intro t ht
      simp only [Bool.and_eq_true, beq_iff_eq, not_and]
      intro hty
      exact absurd hty (hno t ht)
    unfold latestAssigned
    rw [hfil]
    rfl
  have hother : ∀ cfg o (s : Store) tid now (did : Nat) d,
      (∀ x ∈ s.drones, x.id = did → x.state ≠ DroneState.idle) →
      (assign_task_to_drone cfg o s tid now).2.2 = some d →
      d.id ≠ did := by
    intro cfg o s tid now did d hbusy h heq
    obtain ⟨hmem, hidle, _, _⟩ := assign_some_anatomy cfg o s tid now d h
    exact hbusy d hmem heq hidle
  have hpost : ∀ cfg o (s : Store) tid now d,
      (assign_task_to_drone cfg o s tid now).2.2 = some d →
      ∃ d', (assign_task_to_drone cfg o s tid now).2.1.drones.find?
          (fun x => x.id == d.id) = some d' ∧
        d'.state = DroneState.assigned := by
    intro cfg o s tid now d h
    obtain ⟨hmem, hidle, hstore, _⟩ := assign_some_anatomy cfg o s tid now d h
    rw [hstore]
    have hsome : (s.drones.find? (fun x => x.id == d.id)).isSome := by
      rw [List.find?_isSome]
      exact ⟨d, hmem, by simp⟩
    obtain ⟨x0, hx0⟩ := Option.isSome_iff_exists.1 hsome
    have h2 := find?_map_update (fun x => x.id == d.id)
      (fun x => { x with state := DroneState.assigned })
      (fun a => rfl) s.drones
    rw [hx0] at h2
    exact ⟨{ x0 with state := DroneState.assigned }, h2, rfl⟩
  refine ⟨hreset, fun s => rfl, hother, hpost, ?_⟩
  intro cfg o s tid now o2 tid2 now2 D d h1 h2
  obtain ⟨hmemD, hidleD, hstore, _⟩ := assign_some_anatomy cfg o s tid now D h1
  refine hother cfg o2 _ tid2 now2 D.id d ?_ h2
  intro x hx hxid
  rw [hstore] at hx
  rcases List.mem_map.1 hx with ⟨x0, hx0, rfl⟩
  by_cases hif : (x0.id == D.id) = true
  · simp only [hif, if_true]
    intro hc
    cases hc
  · simp only [hif, Bool.false_eq_true, if_false] at hxid ⊢
    exact absurd hxid (by simpa using hif)

theorem claim2_witness :
    (load_round_robin_state sC2).2 = -1 :=
  claim2_restart_recovery.1 sC2 (by decide)

/-! ## C7 — round-robin coverage over N cycles -/

/-- One `create_scout_task` + `assign_task_to_drone` cycle, iterated;
collects the primary keys of the selected drones in order. -/
def runCycles (cfg : Config) (today : Nat) (area : Area) (now : ℚ) :
    Nat → Orch × Store → (Orch × Store) × List Nat
  | 0, os => (os, [])
  | Nat.succ k, (o, s) =>
    let c := create_scout_task cfg o s today area "medium"
    let a := assign_task_to_drone cfg c.1 c.2.1 c.2.2 now
    let rest := runCycles cfg today area now k (a.1, a.2.1)
    (rest.1, (match a.2.2 with | some d => [d.id] | none => []) ++ rest.2)

/-- The drones already selected so far, marked `ASSIGNED` in place. -/
def markAssigned (sel : List Nat) (d : Drone) : Drone :=
  if d.id ∈ sel then { d with state := DroneState.assigned } else d

theorem markAssigned_nil (l : List Drone) : l.map (markAssigned []) = l := by
  have : ∀ d ∈ l, markAssigned [] d = d := by
    intro d _
    simp [markAssigned]
  rw [List.map_congr_left this]
  simp

theorem markAssigned_id (sel : List Nat) (d : Drone) :
    (markAssigned sel d).id = d.id := by
  unfold markAssigned
  split <;> rfl

theorem markAssigned_type (sel : List Nat) (d : Drone) :
    (markAssigned sel d).drone_type = d.drone_type := by
  unfold markAssigned
  split <;> rfl

/-- When the found task exists and an eligible drone exists, the assignment
succeeds. -/
theorem assign_succeeds (cfg : Config) (o : Orch) (s : Store) (tid : TId)
    (now : ℚ) (t : Task)
    (hfound : s.tasks.find? (fun x => x.task_id == tid) = some t)
    (hne : (s.drones.filter (eligible cfg (requiredType t))).insertionSort
      (fun a b => strLe a.drone_id b.drone_id) ≠ []) :
    ∃ d, (assign_task_to_drone cfg o s tid now).2.2 = some d := by
  unfold assign_task_to_drone
  rw [hfound]
  dsimp only
  rw [if_neg (by simpa [List.isEmpty_iff] using hne)]
  have hbat : ∀ d ∈ (s.drones.filter (eligible cfg (requiredType t))).insertionSort
      (fun a b => strLe a.drone_id b.drone_id),
      cfg.min_battery_percent ≤ d.battery_percent := by
    intro d hd
    rw [List.mem_insertionSort] at hd
    have hel := List.of_mem_filter hd
    unfold eligible at hel
    simp only [Bool.and_eq_true, decide_eq_true_eq] at hel
    exact hel.2
  obtain ⟨d, hget, hsel⟩ := rrSelect_first _
    (if requiredType t == DroneType.scouter then o.last_assigned_scouter_index
     else o.last_assigned_firefighter_index) _ hne hbat
  rw [hsel]
  exact ⟨d, rfl⟩

/-- The assignment never touches the task/detection counters (only the
round-robin cursor of the selected kind). -/
theorem assign_counters (cfg : Config) (o : Orch) (s : Store) (tid : TId)
    (now : ℚ) :
    (assign_task_to_drone cfg o s tid now).1.task_counter = o.task_counter := by
  unfold assign_task_to_drone
  split
  · rfl
  next task hfound =>
    dsimp only
    split
    · rfl
    · split
      next dd idx hsel =>
        dsimp only
        split <;> rfl
      next hsel =>
        split
        next dd hhb => rfl
        next => rfl

/-- Induction core for round-robin coverage: with `sel` the ids already
selected (marked `ASSIGNED` in the store) and enough unselected scouters
left, `k` further cycles select `k` more distinct scouter ids. -/
theorem runCycles_cover (cfg : Config) (today : Nat) (area : Area) (now : ℚ)
    (s0drones : List Drone)
    (hpool : ∀ d ∈ s0drones, d.drone_type = DroneType.scouter →
      d.state = DroneState.idle ∧ cfg.min_battery_percent ≤ d.battery_percent)
    (hnodup : ((s0drones.filter (fun d => d.drone_type == DroneType.scouter)).map
      (fun d => d.id)).Nodup) :
    ∀ (k : Nat) (o : Orch) (s : Store) (sel : List Nat),
      s.drones = s0drones.map (markAssigned sel) →
      sel.Nodup →
      (∀ i ∈ sel, i ∈ (s0drones.filter
        (fun d => d.drone_type == DroneType.scouter)).map (fun d => d.id)) →
      (∀ t ∈ s.tasks, t.task_id.day = today → t.task_id.seq ≤ o.task_counter) →
      k + sel.length ≤ (s0drones.filter
        (fun d => d.drone_type == DroneType.scouter)).length →
      (runCycles cfg today area now k (o, s)).2.length = k ∧
      (sel ++ (runCycles cfg today area now k (o, s)).2).Nodup ∧
      (∀ i ∈ (runCycles cfg today area now k (o, s)).2,
        i ∈ (s0drones.filter
          (fun d => d.drone_type == DroneType.scouter)).map (fun d => d.id)) := by
  intro k
  induction k with
  | zero =>
    intro o s sel hdr hnd hsub hctr hle
    refine ⟨rfl, ?_, ?_⟩
    · simpa [runCycles] using hnd
    · intro i hi
      simp [runCycles] at hi
  | succ k ih =>
    intro o s sel hdr hnd hsub hctr hle
    have hfound : (s.tasks ++ [scoutTask cfg today (o.task_counter + 1) area "medium"]).find?
        (fun x => x.task_id == (⟨today, o.task_counter + 1⟩ : TId)) =
        some (scoutTask cfg today (o.task_counter + 1) area "medium") := by
      rw [List.find?_append]
      have h1 : s.tasks.find?
          (fun x => x.task_id == (⟨today, o.task_counter + 1⟩ : TId)) = none := by
        rw [List.find?_eq_none]
        intro t ht hb
        have heq : t.task_id = ⟨today, o.task_counter + 1⟩ := by simpa using hb
        have := hctr t ht (by rw [heq])
        rw [heq] at this
        have h2 : o.task_counter + 1 ≤ o.task_counter := this
        omega
      rw [h1]
      simp [scoutTask]
    -- an unselected scouter exists, so the candidate list is non-empty
    obtain ⟨x, hxmem, hxtype, hxsel⟩ :
        ∃ x ∈ s0drones, x.drone_type = DroneType.scouter ∧ x.id ∉ sel := by
      by_contra hcon
      push_neg at hcon
      have hsubset : (s0drones.filter
          (fun d => d.drone_type == DroneType.scouter)).map (fun d => d.id) ⊆ sel := by
        intro i hi
        rcases List.mem_map.1 hi with ⟨y, hy, rfl⟩
        obtain ⟨hy1, hy2⟩ := List.mem_filter.1 hy
        exact hcon y hy1 (by simpa using hy2)
      have := (List.Nodup.subperm hnodup hsubset).length_le
      rw [List.length_map] at this
      omega
    have hmx : markAssigned sel x = x := by
      simp [markAssigned, hxsel]
    have hxel : eligible cfg DroneType.scouter x = true := by
      obtain ⟨hidle, hbat⟩ := hpool x hxmem hxtype
      unfold eligible
      simp [hxtype, hidle, hbat]
    have hxdr : x ∈ s.drones := by
      rw [hdr]
      have := List.mem_map_of_mem (markAssigned sel) hxmem
      rwa [hmx] at this
    have hne : (s.drones.filter (eligible cfg DroneType.scouter)).insertionSort
        (fun a b => strLe a.drone_id b.drone_id) ≠ [] := by
      apply List.ne_nil_of_mem (a := x)
      rw [List.mem_insertionSort]
      exact List.mem_filter.2 ⟨hxdr, hxel⟩
    -- the cycle's assignment succeeds
    obtain ⟨dd, hsome⟩ := assign_succeeds cfg
      { o with task_counter := o.task_counter + 1 }
      { s with tasks := s.tasks ++ [scoutTask cfg today (o.task_counter + 1) area "medium"] }
      ⟨today, o.task_counter + 1⟩ now
      (scoutTask cfg today (o.task_counter + 1) area "medium") hfound hne
    obtain ⟨hmem, hidle, hstore, helig⟩ := assign_some_anatomy cfg
      { o with task_counter := o.task_counter + 1 }
      { s with tasks := s.tasks ++ [scoutTask cfg today (o.task_counter + 1) area "medium"] }
      ⟨today, o.task_counter + 1⟩ now dd hsome
    have hddel : eligible cfg DroneType.scouter dd = true :=
      helig (scoutTask cfg today (o.task_counter + 1) area "medium") hfound
    have hddtype : dd.drone_type = DroneType.scouter := by
      unfold eligible at hddel
      simp only [Bool.and_eq_true, beq_iff_eq] at hddel
      exact hddel.1.1
    -- the selected drone is an unselected member of the original pool
    obtain ⟨x0, hx0mem, hx0eq⟩ := List.mem_map.1 (hdr ▸ hmem)
    have hx0sel : x0.id ∉ sel := by
      intro hin
      have : dd.state = DroneState.assigned := by
        rw [← hx0eq]
        simp [markAssigned, hin]
      rw [hidle] at this
      cases this
    have hddx0 : dd = x0 := by
      rw [← hx0eq]
      simp [markAssigned, hx0sel]
    have hddmem : dd ∈ s0drones := hddx0 ▸ hx0mem
    have hddsel : dd.id ∉ sel := by
      rw [hddx0]
      exact hx0sel
    have hddpool : dd.id ∈ (s0drones.filter
        (fun d => d.drone_type == DroneType.scouter)).map (fun d => d.id) :=
      List.mem_map_of_mem _ (List.mem_filter.2 ⟨hddmem, by simp [hddtype]⟩)
    -- the post-assignment store is the original pool with dd.id also marked
    have hdrones' : (commitAssign
        { s with tasks := s.tasks ++ [scoutTask cfg today (o.task_counter + 1) area "medium"] }
        ⟨today, o.task_counter + 1⟩ dd.id now).drones =
        s0drones.map (markAssigned (dd.id :: sel)) := by
      show (s.drones.map (fun d =>
        if d.id == dd.id then { d with state := DroneState.assigned } else d)) =
        s0drones.map (markAssigned (dd.id :: sel))
      rw [hdr, List.map_map]
      apply List.map_congr_left
      intro y hy
      show (fun d =>
          if d.id == dd.id then { d with state := DroneState.assigned } else d)
          (markAssigned sel y) = markAssigned (dd.id :: sel) y
      by_cases hy1 : y.id ∈ sel
      · have hy2 : y.id ≠ dd.id := fun h => hddsel (h ▸ hy1)
        simp [markAssigned, hy1, hy2, List.mem_cons, beq_iff_eq]
      · by_cases hy2 : y.id = dd.id
        · simp [markAssigned, hy1, hy2, hddsel, List.mem_cons, beq_iff_eq]
        · simp [markAssigned, hy1, hy2, List.mem_cons, beq_iff_eq]
    have hctr' : ∀ t ∈ (commitAssign
        { s with tasks := s.tasks ++ [scoutTask cfg today (o.task_counter + 1) area "medium"] }
        ⟨today, o.task_counter + 1⟩ dd.id now).tasks,
        t.task_id.day = today → t.task_id.seq ≤ o.task_counter + 1 := by
      intro t ht hday
      rcases List.mem_map.1 ht with ⟨t0, ht0, rfl⟩
      have hid : (if t0.task_id == (⟨today, o.task_counter + 1⟩ : TId) then
          { t0 with
            drone_id := some dd.id
            state := TaskState.assigned
            assigned_at := some now }
        else t0).task_id = t0.task_id := by
        split <;> rfl
      rw [hid] at hday ⊢
      rcases List.mem_append.1 ht0 with h' | h'
      · exact le_trans (hctr t0 h' hday) (Nat.le_succ _)
      · rcases List.mem_singleton.1 h' with rfl
        exact le_refl _
    have hcounters : (assign_task_to_drone cfg
        { o with task_counter := o.task_counter + 1 }
        { s with tasks := s.tasks ++ [scoutTask cfg today (o.task_counter + 1) area "medium"] }
        ⟨today, o.task_counter + 1⟩ now).1.task_counter = o.task_counter + 1 :=
      assign_counters cfg _ _ _ now
    have hih := ih
      (assign_task_to_drone cfg { o with task_counter := o.task_counter + 1 }
        { s with tasks := s.tasks ++ [scoutTask cfg today (o.task_counter + 1) area "medium"] }
        ⟨today, o.task_counter + 1⟩ now).1
      (assign_task_to_drone cfg { o with task_counter := o.task_counter + 1 }
        { s with tasks := s.tasks ++ [scoutTask cfg today (o.task_counter + 1) area "medium"] }
        ⟨today, o.task_counter + 1⟩ now).2.1
      (dd.id :: sel)
      (by rw [hstore]; exact hdrones')
      (List.nodup_cons.2 ⟨hddsel, hnd⟩)
      (by
        intro i hi
        rcases List.mem_cons.1 hi with rfl | hi'
        · exact hddpool
        · exact hsub i hi')
      (by rw [hcounters, hstore]; exact hctr')
      (by simp only [List.length_cons]; omega)
    simp only [runCycles, create_scout_task]
    rw [hsome]
    refine ⟨?_, ?_, ?_⟩
    · simp only [List.length_append, List.length_singleton, hih.1]
      omega
    · have hperm : List.Perm
        (sel ++ dd.id :: (runCycles cfg today area now k
          ((assign_task_to_drone cfg { o with task_counter := o.task_counter + 1 }
            { s with tasks := s.tasks ++ [scoutTask cfg today (o.task_counter + 1) area "medium"] }
            ⟨today, o.task_counter + 1⟩ now).1,
           (assign_task_to_drone cfg { o with task_counter := o.task_counter + 1 }
            { s with tasks := s.tasks ++ [scoutTask cfg today (o.task_counter + 1) area "medium"] }
            ⟨today, o.task_counter + 1⟩ now).2.1)).2)
        (dd.id :: (sel ++ (runCycles cfg today area now k
          ((assign_task_to_drone cfg { o with task_counter := o.task_counter + 1 }
            { s with tasks := s.tasks ++ [scoutTask cfg today (o.task_counter + 1) area "medium"] }
            ⟨today, o.task_counter + 1⟩ now).1,
           (assign_task_to_drone cfg { o with task_counter := o.task_counter + 1 }
            { s with tasks := s.tasks ++ [scoutTask cfg today (o.task_counter + 1) area "medium"] }
            ⟨today, o.task_counter + 1⟩ now).2.1)).2)) := List.perm_middle
      exact hperm.symm.nodup hih.2.1
    · intro i hi
      rcases List.mem_append.1 hi with h' | h'
      · rcases List.mem_singleton.1 h' with rfl
        exact hddpool
      · exact hih.2.2 i h'

/-- C7: (a) starting from N ≥ 2 idle scouter drones all meeting the battery
minimum (and no other scouters), N sequential `create_scout_task` +
`assign_task_to_drone` cycles select each of the N drones exactly once (the
selected ids are a permutation of the pool's ids); (b) with no eligible drone
the assignment returns `none` and changes nothing; (c) on success the
selected drone is the candidate at index `(cursor + 1) mod n` of the list of
eligible drones ordered by `drone_id`, and the per-kind cursor advances to
exactly that index (it is untouched in the `none` case, by (b)). -/
theorem claim7_round_robin :
    (∀ cfg today area now N (o : Orch) (s : Store),
      2 ≤ N →
      (s.drones.filter (fun d => d.drone_type == DroneType.scouter)).length = N →
      (∀ d ∈ s.drones, d.drone_type = DroneType.scouter →
        d.state = DroneState.idle ∧ cfg.min_battery_percent ≤ d.battery_percent) →
      ((s.drones.filter (fun d => d.drone_type == DroneType.scouter)).map
        (fun d => d.id)).Nodup →
      (∀ t ∈ s.tasks, t.task_id.day = today → t.task_id.seq ≤ o.task_counter) →
      List.Perm (runCycles cfg today area now N (o, s)).2
        ((s.drones.filter (fun d => d.drone_type == DroneType.scouter)).map
          (fun d => d.id))) ∧
    (∀ cfg o s tid now t,
      s.tasks.find? (fun x => x.task_id == tid) = some t →
      s.drones.filter (eligible cfg (requiredType t)) = [] →
      assign_task_to_drone cfg o s tid now = (o, s, none)) ∧
    (∀ cfg o (s : Store) tid now t available last,
      s.tasks.find? (fun x => x.task_id == tid) = some t →
      available = (s.drones.filter (eligible cfg (requiredType t))).insertionSort
          (fun a b => strLe a.drone_id b.drone_id) →
      last = (if requiredType t == DroneType.scouter then
          o.last_assigned_scouter_index
        else o.last_assigned_firefighter_index) →
      available ≠ [] →
      ∃ d, available[(((last + 1).emod (available.length : Int)).toNat)]? = some d ∧
        assign_task_to_drone cfg o s tid now =
          ((if requiredType t == DroneType.scouter then
              { o with last_assigned_scouter_index :=
                ((((last + 1).emod (available.length : Int)).toNat : Nat) : Int) }
            else
              { o with last_assigned_firefighter_index :=
                ((((last + 1).emod (available.length : Int)).toNat : Nat) : Int) }),
           commitAssign s tid d.id now, some d)) := by
  refine ⟨?_, ?_, ?_⟩
  · intro cfg today area now N o s hN hlen hpool hnodup hctr
    have hmain := runCycles_cover cfg today area now s.drones hpool hnodup N o s []
      (markAssigned_nil s.drones).symm List.nodup_nil (by intro i hi; cases hi)
      hctr (by simpa using hlen.ge)
    obtain ⟨hlen', hnd', hsub'⟩ := hmain
    have hnd'' : (runCycles cfg today area now N (o, s)).2.Nodup := by
      simpa using hnd'
    have hsubperm := List.Nodup.subperm hnd'' (fun i hi => hsub' i hi)
    refine hsubperm.perm_of_length_le ?_
    rw [hlen', List.length_map, hlen]
  · intro cfg o s tid now t hfound hfil
    unfold assign_task_to_drone
    rw [hfound]
    dsimp only
    rw [hfil]
    rfl
  · intro cfg o s tid now t available last hfound havail hlast hne
    have hbat : ∀ d ∈ available, cfg.min_battery_percent ≤ d.battery_percent := by
      intro d hd
      rw [havail, List.mem_insertionSort] at hd
      have hel := List.of_mem_filter hd
      unfold eligible at hel
      simp only [Bool.and_eq_true, decide_eq_true_eq] at hel
      exact hel.2
    obtain ⟨d, hget, hsel⟩ := rrSelect_first available last cfg.min_battery_percent
      hne hbat
    refine ⟨d, hget, ?_⟩
    subst havail
    subst hlast
    unfold assign_task_to_drone
    rw [hfound]
    dsimp only
    rw [if_neg (by simpa [List.isEmpty_iff] using hne), hsel]

def sC7 : Store :=
  { drones := [mkDrone 1 "SD-001" DroneType.scouter DroneState.idle 90,
               mkDrone 2 "SD-002" DroneType.scouter DroneState.idle 85]
    tasks := []
    detections := [] }

theorem claim7_witness :
    List.Perm (runCycles cfgEx 20251012 areaEx 50 2 (orchEx, sC7)).2 [1, 2] := by
  have h := claim7_round_robin.1 cfgEx 20251012 areaEx 50 2 orchEx sC7
    (le_refl 2) (by decide)
    (by
      intro d hd ht
      rcases List.mem_cons.1 hd with rfl | hd'
      · exact ⟨rfl, by norm_num [cfgEx, mkDrone]⟩
      · rcases List.mem_cons.1 hd' with rfl | hd''
        · exact ⟨rfl, by norm_num [cfgEx, mkDrone]⟩
        · cases hd'')
    (by decide) (by intro t ht hday; cases ht)
  have hids : (sC7.drones.filter (fun d => d.drone_type == DroneType.scouter)).map
      (fun d => d.id) = [1, 2] := by decide
  rw [hids] at h
  exact h

end DFS
